import Mathlib

/-!
Verification of the notification Kafka test producer
(`notification/demo/test-producer.py`).

Modelling conventions, used throughout:
a Python `str` is its sequence of Unicode code points (`List Nat`);
a byte string is a `List Nat` of values below 256;
a `datetime` instant is the number of microseconds since the Unix epoch
(`Nat`), the value underlying `datetime.utcnow()`;
each `uuid4()` draw and each `datetime.utcnow()` reading made by a call is an
explicit parameter of the corresponding definition, in evaluation order.
-/

/-- A Python string: its sequence of Unicode code points. -/
abbrev Str := List Nat

/-- Code points of a Lean string literal, for writing the script's literals. -/
def lit (s : String) : Str := s.toList.map Char.toNat

/-- An event dict as the script builds it: keys and values are all strings,
kept in insertion order (Python dicts preserve insertion order). -/
abbrev Event := List (Str × Str)

/-- Dict lookup `event[k]` (the keys of the script's dicts are distinct). -/
def getField : Event → Str → Option Str
  | [], _ => none
  | (k', v) :: tl, k => if k' = k then some v else getField tl k

/-- A valid Unicode scalar value: in range and not a surrogate. A Python
`str` that can cross the UTF-8 boundary holds only such code points. -/
def ValidCp (n : Nat) : Prop := n < 1114112 ∧ ¬(55296 ≤ n ∧ n < 57344)

instance (n : Nat) : Decidable (ValidCp n) := by unfold ValidCp; exact inferInstance

/-- A string of valid Unicode scalar values. -/
def ValidStr (s : Str) : Prop := ∀ c ∈ s, ValidCp c

instance (s : Str) : Decidable (ValidStr s) := by unfold ValidStr; exact inferInstance

/-- An event all of whose keys and values are valid Unicode strings. -/
def ValidEvent (e : Event) : Prop := ∀ kv ∈ e, ValidStr kv.1 ∧ ValidStr kv.2

instance (e : Event) : Decidable (ValidEvent e) := by unfold ValidEvent; exact inferInstance

/-- Lower-case hex digit, as `json.dumps` emits inside a uXXXX escape. -/
def hexDig (d : Nat) : Nat := if d < 10 then 48 + d else 87 + d

/-- Four-digit hex rendering of `n < 0x10000`. -/
def hex4 (n : Nat) : Str :=
  [hexDig (n / 4096 % 16), hexDig (n / 256 % 16), hexDig (n / 16 % 16), hexDig (n % 16)]

/-- How `json.dumps` with `ensure_ascii=True` (the default, used by the
script's value serializer) renders one code point inside a string literal:
quote, backslash and the five short control escapes get two-character
escapes; other printable ASCII is literal; every other code point below
0x10000 becomes one uXXXX escape; code points above 0xFFFF become the
UTF-16 surrogate pair of uXXXX escapes. -/
def escapeCp (n : Nat) : Str :=
  if n = 34 then [92, 34]
  else if n = 92 then [92, 92]
  else if n = 8 then [92, 98]
  else if n = 9 then [92, 116]
  else if n = 10 then [92, 110]
  else if n = 12 then [92, 102]
  else if n = 13 then [92, 114]
  else if 32 ≤ n ∧ n ≤ 126 then [n]
  else if n < 65536 then [92, 117] ++ hex4 n
  else [92, 117] ++ hex4 (55296 + (n - 65536) / 1024) ++ [92, 117] ++ hex4 (56320 + (n - 65536) % 1024)

/-- Escape a whole string as `json.dumps` does between the quotes. -/
def escapeStr : Str → Str
  | [] => []
  | c :: s => escapeCp c ++ escapeStr s

/-- A JSON string literal: quote, escaped body, quote. -/
def quoteStr (s : Str) : Str := 34 :: (escapeStr s ++ [34])

/-- One `"key": "value"` member, with the `": "` of `json.dumps`'
default separators. -/
def memberStr (k v : Str) : Str := quoteStr k ++ 58 :: 32 :: quoteStr v

/-- The members of the object joined by the default `", "` separator,
followed by the closing brace. -/
def dumpsMembers : Event → Str
  | [] => [125]
  | [(k, v)] => memberStr k v ++ [125]
  | (k, v) :: tl => memberStr k v ++ 44 :: 32 :: dumpsMembers tl

/-- Code points of `json.dumps(e)` for a dict of strings `e`: opening brace,
members, closing brace. -/
def dumps (e : Event) : Str := 123 :: dumpsMembers e

/-- UTF-8 encoding of one code point, as `.encode('utf-8')` performs it. -/
def utf8Cp (n : Nat) : List Nat :=
  if n < 128 then [n]
  else if n < 2048 then [192 + n / 64, 128 + n % 64]
  else if n < 65536 then [224 + n / 4096, 128 + n / 64 % 64, 128 + n % 64]
  else [240 + n / 262144, 128 + n / 4096 % 64, 128 + n / 64 % 64, 128 + n % 64]

/-- UTF-8 encoding of a string, as the serializers' `.encode('utf-8')`. -/
def utf8Encode : Str → List Nat
  | [] => []
  | c :: s => utf8Cp c ++ utf8Encode s

/-- Classification of the first byte of a UTF-8 sequence: plain ASCII, the
lead of a sequence expecting `k` continuation bytes with initial payload
bits `init`, or an invalid lead (a stray continuation byte 0x80-0xBF, the
always-overlong leads 0xC0/0xC1, or 0xF5-0xFF, which would exceed
U+10FFFF). -/
inductive Utf8Lead where
  | ascii
  | lead (k : Nat) (init : Nat)
  | bad
deriving DecidableEq

/-- Classify a lead byte. -/
def utf8Lead (b : Nat) : Utf8Lead :=
  if b < 128 then .ascii
  else if b < 194 then .bad
  else if b < 224 then .lead 1 (b - 192)
  else if b < 240 then .lead 2 (b - 224)
  else if b < 245 then .lead 3 (b - 240)
  else .bad

/-- Take `k` continuation bytes (each 0x80-0xBF), folding their payloads
into the accumulated code point; fails on a non-continuation byte or
truncated input. -/
def utf8Conts : Nat → Nat → List Nat → Option (Nat × List Nat)
  | 0, acc, bs => some (acc, bs)
  | k + 1, acc, b :: bs =>
    if 128 ≤ b ∧ b < 192 then utf8Conts k (acc * 64 + (b - 128)) bs else none
  | _ + 1, _, [] => none

/-- Range check a decoded sequence of `k` continuation bytes: rejects
overlong encodings, surrogates and code points beyond 0x10FFFF, as
Python's strict `bytes.decode('utf-8')` does. -/
def utf8Ok (k n : Nat) : Bool :=
  if k = 2 then decide (2048 ≤ n ∧ ¬(55296 ≤ n ∧ n < 57344))
  else if k = 3 then decide (65536 ≤ n ∧ n < 1114112)
  else decide (128 ≤ n)

/-- Strict UTF-8 decoding of bytes back to code points, one lead byte and
its continuation bytes per step. The fuel argument only bounds the
recursion depth; every step consumes input, so fuel exceeding the input
length is never exhausted. -/
def utf8DecodeF : Nat → List Nat → Option (List Nat)
  | 0, _ => none
  | _ + 1, [] => some []
  | fuel + 1, b :: bs =>
    match utf8Lead b with
    | .ascii => (utf8DecodeF fuel bs).map (b :: ·)
    | .bad => none
    | .lead k init =>
      match utf8Conts k init bs with
      | some (n, rest) => if utf8Ok k n then (utf8DecodeF fuel rest).map (n :: ·) else none
      | none => none

/-- Strict UTF-8 decoding of a byte sequence, as the `bytes.decode('utf-8')`
that `json.loads` applies to bytes input: rejects stray continuation bytes,
truncated sequences, overlong encodings, surrogates and code points beyond
0x10FFFF. -/
def utf8Decode (bs : List Nat) : Option (List Nat) := utf8DecodeF (bs.length + 1) bs

/-- Value of one hex digit as `json.loads` accepts it (0-9, a-f, A-F). -/
def hexVal (c : Nat) : Option Nat :=
  if 48 ≤ c ∧ c ≤ 57 then some (c - 48)
  else if 97 ≤ c ∧ c ≤ 102 then some (c - 87)
  else if 65 ≤ c ∧ c ≤ 70 then some (c - 55)
  else none

/-- Read the four hex digits of one uXXXX escape, as `json.loads` reads
them; fails when fewer than four characters remain or one is not a hex
digit. -/
def parseHex4 (cs : Str) : Option (Nat × Str) :=
  match cs with
  | c1 :: c2 :: c3 :: c4 :: rest =>
    match hexVal c1, hexVal c2, hexVal c3, hexVal c4 with
    | some d1, some d2, some d3, some d4 => some (((d1 * 16 + d2) * 16 + d3) * 16 + d4, rest)
    | _, _, _, _ => none
  | _ => none

/-- Decode one uXXXX escape after its `u`, with the surrogate recombination
`json.loads` performs: a high-surrogate escape immediately followed by a
second uXXXX escape recombines with it when that one is a low surrogate,
keeps the high surrogate alone (leaving the second escape to be scanned on
its own) when it is not, and fails when the following escape has malformed
hex digits; a lone surrogate escape stays a lone surrogate code point.
Returns the decoded code point and the rest of the input. -/
def parseUEscape (cs : Str) : Option (Nat × Str) :=
  match parseHex4 cs with
  | none => none
  | some (n, cs3) =>
    if 55296 ≤ n ∧ n < 56320 then
      match cs3 with
      | 92 :: 117 :: cs4 =>
        match parseHex4 cs4 with
        | some (m, cs5) =>
          if 56320 ≤ m ∧ m < 57344 then some (65536 + (n - 55296) * 1024 + (m - 56320), cs5)
          else some (n, cs3)
        | none => none
      | _ => some (n, cs3)
    else some (n, cs3)

/-- Scan a JSON string body after its opening quote, as `json.loads` does in
its default strict mode: a quote ends the string; a backslash introduces one
of the simple escapes or a uXXXX escape (decoded by `parseUEscape`,
surrogate recombination included); raw control characters below 0x20 are
rejected; anything else is literal. Returns the decoded string and the rest
of the input after the closing quote. The fuel argument only bounds the
recursion depth; every recursive call consumes input, so callers pass fuel
exceeding the input length and the bound is never hit on a complete scan. -/
def parseStringBody : Nat → Str → Option (Str × Str)
  | 0, _ => none
  | _ + 1, [] => none
  | fuel + 1, c :: cs =>
    if c = 34 then some ([], cs)
    else if c = 92 then
      match cs with
      | [] => none
      | e :: cs2 =>
        if e = 34 then (parseStringBody fuel cs2).map (fun r => (34 :: r.1, r.2))
        else if e = 92 then (parseStringBody fuel cs2).map (fun r => (92 :: r.1, r.2))
        else if e = 47 then (parseStringBody fuel cs2).map (fun r => (47 :: r.1, r.2))
        else if e = 98 then (parseStringBody fuel cs2).map (fun r => (8 :: r.1, r.2))
        else if e = 102 then (parseStringBody fuel cs2).map (fun r => (12 :: r.1, r.2))
        else if e = 110 then (parseStringBody fuel cs2).map (fun r => (10 :: r.1, r.2))
        else if e = 114 then (parseStringBody fuel cs2).map (fun r => (13 :: r.1, r.2))
        else if e = 116 then (parseStringBody fuel cs2).map (fun r => (9 :: r.1, r.2))
        else if e = 117 then
          match parseUEscape cs2 with
          | some (n, cs3) => (parseStringBody fuel cs3).map (fun r => (n :: r.1, r.2))
          | none => none
        else none
    else if c < 32 then none
    else (parseStringBody fuel cs).map (fun r => (c :: r.1, r.2))

/-- Skip JSON whitespace (space, tab, newline, carriage return). -/
def skipWs : Str → Str
  | c :: cs => if c = 32 ∨ c = 9 ∨ c = 10 ∨ c = 13 then skipWs cs else c :: cs
  | [] => []

/-- Parse the members of a JSON object whose values are strings, starting
just after the opening brace or after a separating comma, as `json.loads`
parses the objects this producer emits. The fuel argument only bounds the
recursion depth; `loads` supplies fuel exceeding the possible member count,
so it is never exhausted on a complete input. -/
def parseMembers : Nat → Str → Option (Event × Str)
  | 0, _ => none
  | fuel + 1, s =>
    match skipWs s with
    | 34 :: s1 =>
      match parseStringBody (s1.length + 1) s1 with
      | some (k, s2) =>
        match skipWs s2 with
        | 58 :: s3 =>
          match skipWs s3 with
          | 34 :: s4 =>
            match parseStringBody (s4.length + 1) s4 with
            | some (v, s5) =>
              match skipWs s5 with
              | 44 :: s6 => (parseMembers fuel s6).map (fun r => ((k, v) :: r.1, r.2))
              | 125 :: s6 => some ([(k, v)], s6)
              | _ => none
            | none => none
          | _ => none
        | _ => none
      | none => none
    | _ => none

/-- Parse of a complete JSON document, as `json.loads` applied to a bytes
value: decode UTF-8, skip leading whitespace, parse one object of string
members (the only document shape this producer ever serializes), and accept
only whitespace after it. -/
def loads (bytes : List Nat) : Option Event :=
  match utf8Decode bytes with
  | none => none
  | some text =>
    match skipWs text with
    | 123 :: s1 =>
      match skipWs s1 with
      | 125 :: s2 => if skipWs s2 = [] then some [] else none
      | _ =>
        match parseMembers (s1.length + 1) s1 with
        | some (e, rest) => if skipWs rest = [] then some e else none
        | none => none
    | _ => none

example : dumps [(lit "a", lit "b")] = [123, 34, 97, 34, 58, 32, 34, 98, 34, 125] := by decide

example : loads (utf8Encode (dumps [(lit "k", lit "v")])) = some [(lit "k", lit "v")] := by decide

example : loads (utf8Encode (dumps [])) = some [] := by decide

example :
    loads (utf8Encode (dumps [(lit "한", lit "a\"b\\c"), (lit "e", [128512, 10])])) =
      some [(lit "한", lit "a\"b\\c"), (lit "e", [128512, 10])] := by decide

example : loads (lit "\"x\"") = none := by decide

example : escapeCp 128 = [92, 117, 48, 48, 56, 48] := by decide

example : escapeCp 128512 = lit "\\ud83d\\ude00" := by decide

example : utf8Encode (lit "한") = [237, 149, 156] := by decide

example : utf8Decode [237, 149, 156] = some (lit "한") := by decide

example : utf8Decode [240, 159, 152, 128] = some [128512] := by decide

example : utf8Decode [192, 175] = none := by decide

example : utf8Decode [237, 160, 128] = none := by decide

/-- Zero-padded fixed-width decimal rendering, the `%02d`/`%04d`/`%06d`
fields of `datetime.isoformat`. -/
def padDec (w n : Nat) : Str := (List.range w).reverse.map (fun i => 48 + n / 10 ^ i % 10)

/-- Proleptic Gregorian date (year, month, day) of a day count since
1970-01-01, the civil-calendar conversion underlying `datetime`. -/
def civilFromDays (z : Nat) : Nat × Nat × Nat :=
  let era := (z + 719468) / 146097
  let doe := (z + 719468) % 146097
  let yoe := (doe - doe / 1460 + doe / 36524 - doe / 146096) / 365
  let doy := doe - (365 * yoe + yoe / 4 - yoe / 100)
  let mp := (5 * doy + 2) / 153
  let d := doy - (153 * mp + 2) / 5 + 1
  let m := if mp < 10 then mp + 3 else mp - 9
  (era * 400 + yoe + (if m ≤ 2 then 1 else 0), m, d)

/-- Code points of `datetime.utcnow().isoformat()` for an instant `t` in
microseconds since the epoch: `YYYY-MM-DDTHH:MM:SS` followed by `.ffffff`
exactly when the microsecond field is nonzero, as `isoformat` renders it. -/
def isoformat (t : Nat) : Str :=
  let micro := t % 1000000
  let s := t / 1000000
  let ymd := civilFromDays (s / 86400)
  padDec 4 ymd.1 ++ 45 :: padDec 2 ymd.2.1 ++ 45 :: padDec 2 ymd.2.2 ++
    84 :: padDec 2 (s / 3600 % 24) ++ 58 :: padDec 2 (s / 60 % 60) ++ 58 ::
    padDec 2 (s % 60) ++ (if micro = 0 then [] else 46 :: padDec 6 micro)

/-- Timestamp string as the script builds it:
`datetime.utcnow().isoformat() + 'Z'`. -/
def isoZ (t : Nat) : Str := isoformat t ++ [90]

/-- Decimal rendering of a number interpolated into an f-string. -/
def decStr (n : Nat) : Str := (Nat.toDigits 10 n).map Char.toNat

example : isoZ 0 = lit "1970-01-01T00:00:00Z" := by decide

example : isoZ 1728729000123456 = lit "2024-10-12T10:30:00.123456Z" := by decide

/-- Number of microseconds in the `timedelta(hours=1)` a password-reset
event adds to its expiry reading. -/
def oneHour : Nat := 3600000000

/-- Number of microseconds in the `timedelta(minutes=30)` a purchase-slot
event adds to its expiry reading. -/
def thirtyMinutes : Nat := 1800000000

/-- The dict built by `send_new_user_registered`: `t1` is its single
`datetime.utcnow()` reading and `u1`, `u2` its two `uuid4()` draws, in
evaluation order. -/
def newUserRegisteredEvent (t1 : Nat) (u1 u2 email userName : Str) : Event :=
  [(lit "eventId", lit "evt-" ++ u1),
   (lit "eventType", lit "NEW_USER_REGISTERED"),
   (lit "occurredAt", isoZ t1),
   (lit "userId", lit "user-" ++ u2),
   (lit "email", email),
   (lit "userName", userName)]

/-- The dict built by `send_password_reset_requested`: `t1` and `t2` are its
two `datetime.utcnow()` readings (`occurredAt` first, then the expiry
reading) and `u1`, `u2`, `u3` its three `uuid4()` draws, in evaluation
order; `expiresAt` is the second reading plus `timedelta(hours=1)`. -/
def passwordResetRequestedEvent (t1 t2 : Nat) (u1 u2 u3 email : Str) : Event :=
  [(lit "eventId", lit "evt-" ++ u1),
   (lit "eventType", lit "PASSWORD_RESET_REQUESTED"),
   (lit "occurredAt", isoZ t1),
   (lit "userId", lit "user-" ++ u2),
   (lit "email", email),
   (lit "resetToken", lit "reset-token-" ++ u3),
   (lit "expiresAt", isoZ (t2 + oneHour))]

/-- The dict built by `send_purchase_slot_acquired`: `t1` and `t2` are its
two `datetime.utcnow()` readings (`occurredAt` first, then the expiry
reading) and `u1`, `u2`, `u3`, `u4` its four `uuid4()` draws, in evaluation
order; `expiresAt` is the second reading plus `timedelta(minutes=30)`. -/
def purchaseSlotAcquiredEvent (t1 t2 : Nat) (u1 u2 u3 u4 email productName : Str) : Event :=
  [(lit "eventId", lit "evt-" ++ u1),
   (lit "eventType", lit "PURCHASE_SLOT_ACQUIRED"),
   (lit "occurredAt", isoZ t1),
   (lit "userId", lit "user-" ++ u2),
   (lit "email", email),
   (lit "slotId", lit "slot-" ++ u3),
   (lit "productId", lit "prod-" ++ u4),
   (lit "productName", productName),
   (lit "expiresAt", isoZ (t2 + thirtyMinutes))]

/-- Producer configuration as `create_producer` assembles it: the bootstrap
servers and the two serializers handed to `KafkaProducer`. -/
structure ProducerConfig where
  bootstrapServers : Str
  valueSerializer : Event → List Nat
  keySerializer : Option Str → Option (List Nat)

/-- The `KafkaProducer` configuration `create_producer(bootstrap_servers)`
returns (the script always calls it with the default `'localhost:9092'`):
the value serializer is `lambda v: json.dumps(v).encode('utf-8')` and the
key serializer is `lambda k: k.encode('utf-8') if k else None`, so a
missing or empty (falsy) key serializes to None. -/
def createProducer (bootstrapServers : Str) : ProducerConfig :=
  ⟨bootstrapServers,
   fun v => utf8Encode (dumps v),
   fun k =>
     match k with
     | some s => if s = [] then none else some (utf8Encode s)
     | none => none⟩

/-- Broker acknowledgement metadata that `future.get` returns (the two
fields the script prints). -/
structure RecordMeta where
  partition : Nat
  offset : Nat
deriving DecidableEq

/-- Outcome of one blocking `future.get(timeout=10)` wait, supplied by the
environment: the broker acknowledgement, an `Exception` escaping with a
message, or the operator's KeyboardInterrupt arriving during the wait. -/
inductive SendOutcome where
  | ok (ack : RecordMeta)
  | error (msg : Str)
  | interrupt
deriving DecidableEq

/-- Observable actions of the script, in order: a record handed to
`producer.send`, the blocking `future.get` wait for the broker
acknowledgement, a printed line, a line read from the operator (recorded
with its prompt and its already-stripped value), and the final
`producer.close()`. `sendRecord` carries the handle the call goes through,
so which producer object a call uses is part of the observed behaviour. -/
inductive Effect where
  | sendRecord (producer : Nat) (topic : Str) (key : Option Str) (value : Event)
  | futureGet (timeout : Nat)
  | println (line : Str)
  | readLine (prompt : Str) (value : Str)
  | close (producer : Nat)
deriving DecidableEq

/-- Per-call environment of one send function: the `datetime.utcnow()`
readings and the `uuid4()` draws it makes, in evaluation order, and the
outcome of its blocking wait. Fields a given send does not reach are
unused. -/
structure SendEnv where
  tA : Nat
  tB : Nat
  uA : Str
  uB : Str
  uC : Str
  uD : Str
  outcome : SendOutcome
deriving DecidableEq

/-- How a send function call ends: it returns its event, or the exception
or interrupt from the blocking wait escapes to the caller. -/
inductive SendResult where
  | returned (event : Event)
  | raised (msg : Str)
  | interrupted
deriving DecidableEq

/-- Effect trace and result of `send_new_user_registered(producer, email,
user_name)`: build the event, hand it to `producer.send` on the fixed topic
keyed by the event's own eventId, block on `future.get(timeout=10)`, and on
success print the report lines and return the event. An exception or
interrupt raised by the wait cuts the trace there and escapes. -/
def sendNewUserRegistered (producer : Nat) (env : SendEnv) (email userName : Str) :
    List Effect × SendResult :=
  let event := newUserRegisteredEvent env.tA env.uA env.uB email userName
  let calls : List Effect :=
    [.sendRecord producer (lit "notification.requests") (getField event (lit "eventId")) event,
     .futureGet 10]
  match env.outcome with
  | .ok ack =>
    (calls ++
      [.println (lit "✅ NEW_USER_REGISTERED 이벤트 발행 성공"),
       .println (lit "   Event ID: " ++ (getField event (lit "eventId")).getD []),
       .println (lit "   User: " ++ userName ++ lit " (" ++ email ++ lit ")"),
       .println (lit "   Partition: " ++ decStr ack.partition ++ lit ", Offset: " ++
         decStr ack.offset),
       .println []],
     .returned event)
  | .error msg => (calls, .raised msg)
  | .interrupt => (calls, .interrupted)

/-- Effect trace and result of `send_password_reset_requested(producer,
email)`, with the same publish/wait/report shape as the other sends. -/
def sendPasswordResetRequested (producer : Nat) (env : SendEnv) (email : Str) :
    List Effect × SendResult :=
  let event := passwordResetRequestedEvent env.tA env.tB env.uA env.uB env.uC email
  let calls : List Effect :=
    [.sendRecord producer (lit "notification.requests") (getField event (lit "eventId")) event,
     .futureGet 10]
  match env.outcome with
  | .ok ack =>
    (calls ++
      [.println (lit "✅ PASSWORD_RESET_REQUESTED 이벤트 발행 성공"),
       .println (lit "   Event ID: " ++ (getField event (lit "eventId")).getD []),
       .println (lit "   Email: " ++ email),
       .println (lit "   Partition: " ++ decStr ack.partition ++ lit ", Offset: " ++
         decStr ack.offset),
       .println []],
     .returned event)
  | .error msg => (calls, .raised msg)
  | .interrupt => (calls, .interrupted)

/-- Effect trace and result of `send_purchase_slot_acquired(producer, email,
product_name)`, with the same publish/wait/report shape as the other
sends. -/
def sendPurchaseSlotAcquired (producer : Nat) (env : SendEnv) (email productName : Str) :
    List Effect × SendResult :=
  let event := purchaseSlotAcquiredEvent env.tA env.tB env.uA env.uB env.uC env.uD email productName
  let calls : List Effect :=
    [.sendRecord producer (lit "notification.requests") (getField event (lit "eventId")) event,
     .futureGet 10]
  match env.outcome with
  | .ok ack =>
    (calls ++
      [.println (lit "✅ PURCHASE_SLOT_ACQUIRED 이벤트 발행 성공"),
       .println (lit "   Event ID: " ++ (getField event (lit "eventId")).getD []),
       .println (lit "   Product: " ++ productName),
       .println (lit "   Email: " ++ email),
       .println (lit "   Partition: " ++ decStr ack.partition ++ lit ", Offset: " ++
         decStr ack.offset),
       .println []],
     .returned event)
  | .error msg => (calls, .raised msg)
  | .interrupt => (calls, .interrupted)

/-- Outcome of the startup phase of `main`: a connected producer handle, or
process termination through `sys.exit(1)` with that exit code. -/
inductive StartupOut where
  | ok (producer : Nat)
  | exited (code : Nat)
deriving DecidableEq

/-- Startup phase of `main`: banner, then the `create_producer()` attempt
inside its try block. On success the handle is kept and the loop is
entered; on any exception the error and the docker hints are printed and
the process exits with status 1. -/
def mainStartup (connect : Except Str Nat) : List Effect × StartupOut :=
  let banner : List Effect :=
    [.println (List.replicate 60 61),
     .println (lit "Notification Kafka Producer Test"),
     .println (List.replicate 60 61),
     .println [],
     .println (lit "Kafka Producer 연결 중...")]
  match connect with
  | .ok p =>
    (banner ++ [.println (lit "✅ Kafka 연결 성공 (localhost:9092)"), .println []], .ok p)
  | .error msg =>
    (banner ++
      [.println (lit "❌ Kafka 연결 실패: " ++ msg),
       .println [],
       .println (lit "Docker Compose가 실행 중인지 확인하세요:"),
       .println (lit "  docker-compose up -d")],
     .exited 1)

/-- Whether a pass of the interactive loop falls through to the next menu
round (`continue` to the `while True`) or leaves it (`break`). -/
inductive LoopControl where
  | next
  | stop
deriving DecidableEq

/-- Operator inputs and environment of one pass of the interactive loop:
the menu choice and the prompt answers (each the already-stripped result of
its `input(...).strip()`), and a per-send environment for each of the up to
three sends the pass can make. -/
structure IterInput where
  choice : Str
  emailIn : Str
  nameIn : Str
  prodIn : Str
  env1 : SendEnv
  env2 : SendEnv
  env3 : SendEnv
deriving DecidableEq

/-- The `x or default` idiom the script applies to each stripped prompt
answer: the empty string is falsy, anything else is kept. -/
def orDefault (v dflt : Str) : Str := if v = [] then dflt else v

/-- ASCII lowering, as `str.lower` acts on the menu letters the script
compares against. -/
def lowerStr (s : Str) : Str := s.map (fun c => if 65 ≤ c ∧ c ≤ 90 then c + 32 else c)

/-- Menu display and choice prompt printed at the top of every pass of the
interactive loop. -/
def menuEffects (it : IterInput) : List Effect :=
  [.println (List.replicate 60 45),
   .println (lit "발행할 이벤트를 선택하세요:"),
   .println (lit "  1. NEW_USER_REGISTERED (회원가입 환영)"),
   .println (lit "  2. PASSWORD_RESET_REQUESTED (비밀번호 재설정)"),
   .println (lit "  3. PURCHASE_SLOT_ACQUIRED (슬롯 획득)"),
   .println (lit "  4. 모든 이벤트 발행 (테스트용)"),
   .println (lit "  q. 종료"),
   .println (List.replicate 60 45),
   .readLine (lit "선택 (1-4, q): ") it.choice,
   .println []]

/-- The `except` clauses closing the loop body's try block: a normal return
falls through to the next pass; a `KeyboardInterrupt` prints the farewell
and breaks; any other `Exception` prints the error for the operator and
falls through to the next pass. -/
def finishTry (tr : List Effect) (r : SendResult) : List Effect × LoopControl :=
  match r with
  | .returned _ => (tr, .next)
  | .raised msg => (tr ++ [.println (lit "❌ 오류 발생: " ++ msg ++ [10])], .next)
  | .interrupted => (tr ++ [.println ([10, 10] ++ lit "종료합니다.")], .stop)

/-- One pass of the interactive `while True` loop of `main`, given the
connected producer handle `p`: print the menu, read the choice, then run
the chosen branch inside the try block. Branches 1-3 prompt for their
inputs, apply the documented defaults to empty answers and call their send
function; branch 4 publishes all three event types with the default
arguments, stopping at the first escaping exception; `q` (in either case)
prints the farewell and breaks; anything else reports an invalid choice. -/
def mainIteration (p : Nat) (it : IterInput) : List Effect × LoopControl :=
  let pre := menuEffects it
  if it.choice = lit "1" then
    let reads : List Effect :=
      [.readLine (lit "이메일 주소 (기본: test@example.com): ") it.emailIn,
       .readLine (lit "사용자 이름 (기본: 홍길동): ") it.nameIn]
    let r := sendNewUserRegistered p it.env1 (orDefault it.emailIn (lit "test@example.com"))
      (orDefault it.nameIn (lit "홍길동"))
    finishTry (pre ++ reads ++ r.1) r.2
  else if it.choice = lit "2" then
    let reads : List Effect :=
      [.readLine (lit "이메일 주소 (기본: forgot@example.com): ") it.emailIn]
    let r := sendPasswordResetRequested p it.env1 (orDefault it.emailIn (lit "forgot@example.com"))
    finishTry (pre ++ reads ++ r.1) r.2
  else if it.choice = lit "3" then
    let reads : List Effect :=
      [.readLine (lit "이메일 주소 (기본: buyer@example.com): ") it.emailIn,
       .readLine (lit "상품명 (기본: 한정판 스니커즈): ") it.prodIn]
    let r := sendPurchaseSlotAcquired p it.env1 (orDefault it.emailIn (lit "buyer@example.com"))
      (orDefault it.prodIn (lit "한정판 스니커즈"))
    finishTry (pre ++ reads ++ r.1) r.2
  else if it.choice = lit "4" then
    let header := pre ++ [Effect.println (lit "모든 이벤트 타입을 발행합니다..." ++ [10])]
    let r1 := sendNewUserRegistered p it.env1 (lit "test@example.com") (lit "홍길동")
    match r1.2 with
    | .returned _ =>
      let r2 := sendPasswordResetRequested p it.env2 (lit "forgot@example.com")
      match r2.2 with
      | .returned _ =>
        let r3 := sendPurchaseSlotAcquired p it.env3 (lit "buyer@example.com")
          (lit "한정판 스니커즈")
        match r3.2 with
        | .returned _ =>
          (header ++ r1.1 ++ r2.1 ++ r3.1 ++
            [Effect.println (lit "✅ 모든 이벤트 발행 완료!" ++ [10])], .next)
        | _ => finishTry (header ++ r1.1 ++ r2.1 ++ r3.1) r3.2
      | _ => finishTry (header ++ r1.1 ++ r2.1) r2.2
    | _ => finishTry (header ++ r1.1) r1.2
  else if lowerStr it.choice = lit "q" then
    (pre ++ [Effect.println (lit "종료합니다.")], .stop)
  else
    (pre ++ [Effect.println (lit "❌ 잘못된 선택입니다." ++ [10])], .next)

/-- The interactive loop run over a supplied sequence of operator passes:
each pass contributes its effects; the first pass that breaks ends the loop,
after which `main` closes the producer. A session whose passes are
exhausted without a break is still at the menu, so no close is seen. -/
def runLoop (p : Nat) : List IterInput → List Effect
  | [] => []
  | it :: rest =>
    match mainIteration p it with
    | (tr, .stop) => tr ++ [.close p]
    | (tr, .next) => tr ++ runLoop p rest

/-- A whole run of `main`: the startup phase, and when it yields a handle,
the interactive loop over the supplied passes. -/
def runScript (connect : Except Str Nat) (iters : List IterInput) : List Effect :=
  match mainStartup connect with
  | (tr, .ok p) => tr ++ runLoop p iters
  | (tr, .exited _) => tr

/-- The records a trace hands to `producer.send`: the handle used, the
topic, the key and the event value of each `sendRecord` effect. -/
def sentRecords (tr : List Effect) : List (Nat × Str × Option Str × Event) :=
  tr.filterMap (fun e =>
    match e with
    | .sendRecord p topic key v => some (p, topic, key, v)
    | _ => none)

theorem hexDig_lt (n : Nat) : hexDig (n % 16) < 128 := by
  unfold hexDig; split <;> omega

theorem hexVal_hexDig_mod (n : Nat) : hexVal (hexDig (n % 16)) = some (n % 16) := by
  have h16 : n % 16 < 16 := Nat.mod_lt _ (by omega)
  unfold hexDig
  rcases Nat.lt_or_ge (n % 16) 10 with h | h
  · rw [if_pos h]
    unfold hexVal
    rw [if_pos (by omega)]
    congr 1
    omega
  · rw [if_neg (by omega)]
    unfold hexVal
    rw [if_neg (by omega), if_pos (by omega)]
    congr 1
    omega

theorem hex4_readback (n : Nat) :
    ((n / 4096 % 16 * 16 + n / 256 % 16) * 16 + n / 16 % 16) * 16 + n % 16 = n % 65536 := by
  omega

theorem hex4_ascii (n : Nat) : ∀ x ∈ hex4 n, x < 128 := by
  intro x hx
  simp [hex4] at hx
  rcases hx with h | h | h | h <;> (subst h; exact hexDig_lt _)

theorem escapeCp_ascii (n : Nat) : ∀ x ∈ escapeCp n, x < 128 := by
  intro x hx
  have hpair : ∀ m : Nat, x ∈ [92, 117] ++ hex4 m → x < 128 := by
    intro m hm
    rcases List.mem_append.mp hm with hm | hm
    · simp at hm; rcases hm with rfl | rfl <;> omega
    · exact hex4_ascii _ x hm
  unfold escapeCp at hx
  split_ifs at hx
  · simp at hx; rcases hx with rfl | rfl <;> omega
  · simp at hx; rcases hx with rfl | rfl <;> omega
  · simp at hx; rcases hx with rfl | rfl <;> omega
  · simp at hx; rcases hx with rfl | rfl <;> omega
  · simp at hx; rcases hx with rfl | rfl <;> omega
  · simp at hx; rcases hx with rfl | rfl <;> omega
  · simp at hx; rcases hx with rfl | rfl <;> omega
  · simp at hx; omega
  · exact hpair _ hx
  · simp only [List.append_assoc, List.cons_append, List.nil_append, List.mem_cons,
      List.mem_append] at hx
    rcases hx with rfl | rfl | hx | rfl | rfl | hx
    · omega
    · omega
    · exact hex4_ascii _ x hx
    · omega
    · omega
    · exact hex4_ascii _ x hx

theorem escapeStr_ascii (s : Str) : ∀ x ∈ escapeStr s, x < 128 := by
  induction s with
  | nil => intro x hx; simp [escapeStr] at hx
  | cons c s ih =>
    intro x hx
    simp [escapeStr] at hx
    rcases hx with hx | hx
    · exact escapeCp_ascii c x hx
    · exact ih x hx

theorem quoteStr_ascii (s : Str) : ∀ x ∈ quoteStr s, x < 128 := by
  intro x hx
  simp [quoteStr] at hx
  rcases hx with rfl | hx | rfl
  · omega
  · exact escapeStr_ascii _ x hx
  · omega

theorem memberStr_ascii (k v : Str) : ∀ x ∈ memberStr k v, x < 128 := by
  intro x hx
  simp only [memberStr, List.mem_append, List.mem_cons] at hx
  rcases hx with hx | rfl | rfl | hx
  · exact quoteStr_ascii _ x hx
  · omega
  · omega
  · exact quoteStr_ascii _ x hx

theorem dumpsMembers_ascii (e : Event) : ∀ x ∈ dumpsMembers e, x < 128 := by
  induction e with
  | nil => intro x hx; simp [dumpsMembers] at hx; omega
  | cons kv tl ih =>
    obtain ⟨k, v⟩ := kv
    intro x hx
    cases tl with
    | nil =>
      simp only [dumpsMembers, List.mem_append, List.mem_singleton] at hx
      rcases hx with hx | rfl
      · exact memberStr_ascii _ _ x hx
      · omega
    | cons kv2 tl2 =>
      simp only [dumpsMembers, List.mem_append, List.mem_cons] at hx
      rcases hx with hx | rfl | rfl | hx
      · exact memberStr_ascii _ _ x hx
      · omega
      · omega
      · exact ih x hx

theorem dumps_ascii (e : Event) : ∀ x ∈ dumps e, x < 128 := by
  intro x hx
  simp [dumps] at hx
  rcases hx with rfl | hx
  · omega
  · exact dumpsMembers_ascii e x hx

theorem utf8Encode_ascii (s : Str) (h : ∀ x ∈ s, x < 128) : utf8Encode s = s := by
  induction s with
  | nil => rfl
  | cons c s ih =>
    have hc : c < 128 := h c (by simp)
    simp [utf8Encode, utf8Cp, hc, ih (fun x hx => h x (by simp [hx]))]

theorem utf8DecodeF_ascii (s : Str) (fuel : Nat) (h : ∀ x ∈ s, x < 128)
    (hfuel : s.length + 1 ≤ fuel) : utf8DecodeF fuel s = some s := by
  induction s generalizing fuel with
  | nil =>
    obtain ⟨f, rfl⟩ : ∃ f, fuel = f + 1 := ⟨fuel - 1, by omega⟩
    rfl
  | cons c s ih =>
    obtain ⟨f, rfl⟩ : ∃ f, fuel = f + 1 := ⟨fuel - 1, by omega⟩
    have hc : c < 128 := h c (by simp)
    have ihe : utf8DecodeF f s = some s :=
      ih f (fun x hx => h x (by simp [hx])) (by simp at hfuel; omega)
    simp [utf8DecodeF, utf8Lead, hc, ihe]

theorem utf8Decode_ascii (s : Str) (h : ∀ x ∈ s, x < 128) : utf8Decode s = some s :=
  utf8DecodeF_ascii s (s.length + 1) h (by omega)

theorem parseHex4_hex4 (n : Nat) (hn : n < 65536) (rest : Str) :
    parseHex4 (hex4 n ++ rest) = some (n, rest) := by
  have hmod : n % 65536 = n := Nat.mod_eq_of_lt hn
  simp [parseHex4, hex4, hexVal_hexDig_mod, hex4_readback, hmod]

theorem parseUEscape_lone (cs : Str) (n : Nat) (cs3 : Str)
    (hhex : parseHex4 cs = some (n, cs3)) (hns : ¬(55296 ≤ n ∧ n < 56320)) :
    parseUEscape cs = some (n, cs3) := by
  simp [parseUEscape, hhex, hns]

theorem parseUEscape_combine (cs cs4 rest : Str) (n m : Nat)
    (hhex : parseHex4 cs = some (n, 92 :: 117 :: cs4))
    (hn : 55296 ≤ n ∧ n < 56320)
    (hhex2 : parseHex4 cs4 = some (m, rest))
    (hm : 56320 ≤ m ∧ m < 57344) :
    parseUEscape cs = some (65536 + (n - 55296) * 1024 + (m - 56320), rest) := by
  simp [parseUEscape, hhex, hn, hhex2, hm]

theorem parseUEscape_hex4 (n : Nat) (hn : n < 65536) (hns : ¬(55296 ≤ n ∧ n < 56320))
    (rest : Str) : parseUEscape (hex4 n ++ rest) = some (n, rest) :=
  parseUEscape_lone _ n rest (parseHex4_hex4 n hn rest) hns

theorem parseUEscape_pair (c : Nat) (h1 : 65536 ≤ c) (h2 : c < 1114112) (rest : Str) :
    parseUEscape (hex4 (55296 + (c - 65536) / 1024) ++
      92 :: 117 :: (hex4 (56320 + (c - 65536) % 1024) ++ rest)) = some (c, rest) := by
  have ha := parseHex4_hex4 (55296 + (c - 65536) / 1024) (by omega)
    (92 :: 117 :: (hex4 (56320 + (c - 65536) % 1024) ++ rest))
  have hb := parseHex4_hex4 (56320 + (c - 65536) % 1024) (by omega) rest
  have hsur1 : 55296 ≤ 55296 + (c - 65536) / 1024 ∧ 55296 + (c - 65536) / 1024 < 56320 := by
    omega
  have hsur2 : 56320 ≤ 56320 + (c - 65536) % 1024 ∧ 56320 + (c - 65536) % 1024 < 57344 := by
    omega
  have hcomb : 65536 + (55296 + (c - 65536) / 1024 - 55296) * 1024 +
      (56320 + (c - 65536) % 1024 - 56320) = c := by omega
  rw [parseUEscape_combine _ _ _ _ _ ha hsur1 hb hsur2, hcomb]

theorem parseStringBody_quote (f : Nat) (cs : Str) :
    parseStringBody (f + 1) (34 :: cs) = some ([], cs) := by
  simp [parseStringBody]

theorem parseStringBody_e34 (f : Nat) (cs : Str) :
    parseStringBody (f + 1) (92 :: 34 :: cs) =
      (parseStringBody f cs).map (fun r => (34 :: r.1, r.2)) := by
  simp [parseStringBody]

theorem parseStringBody_e92 (f : Nat) (cs : Str) :
    parseStringBody (f + 1) (92 :: 92 :: cs) =
      (parseStringBody f cs).map (fun r => (92 :: r.1, r.2)) := by
  simp [parseStringBody]

theorem parseStringBody_e98 (f : Nat) (cs : Str) :
    parseStringBody (f + 1) (92 :: 98 :: cs) =
      (parseStringBody f cs).map (fun r => (8 :: r.1, r.2)) := by
  simp [parseStringBody]

theorem parseStringBody_e102 (f : Nat) (cs : Str) :
    parseStringBody (f + 1) (92 :: 102 :: cs) =
      (parseStringBody f cs).map (fun r => (12 :: r.1, r.2)) := by
  simp [parseStringBody]

theorem parseStringBody_e110 (f : Nat) (cs : Str) :
    parseStringBody (f + 1) (92 :: 110 :: cs) =
      (parseStringBody f cs).map (fun r => (10 :: r.1, r.2)) := by
  simp [parseStringBody]

theorem parseStringBody_e114 (f : Nat) (cs : Str) :
    parseStringBody (f + 1) (92 :: 114 :: cs) =
      (parseStringBody f cs).map (fun r => (13 :: r.1, r.2)) := by
  simp [parseStringBody]

theorem parseStringBody_e116 (f : Nat) (cs : Str) :
    parseStringBody (f + 1) (92 :: 116 :: cs) =
      (parseStringBody f cs).map (fun r => (9 :: r.1, r.2)) := by
  simp [parseStringBody]

theorem parseStringBody_lit (f : Nat) (c : Nat) (cs : Str) (h34 : ¬c = 34) (h92 : ¬c = 92)
    (h32 : ¬c < 32) :
    parseStringBody (f + 1) (c :: cs) =
      (parseStringBody f cs).map (fun r => (c :: r.1, r.2)) := by
  simp [parseStringBody, h34, h92, h32]

theorem parseStringBody_u (f : Nat) (cs cs3 : Str) (n : Nat)
    (h : parseUEscape cs = some (n, cs3)) :
    parseStringBody (f + 1) (92 :: 117 :: cs) =
      (parseStringBody f cs3).map (fun r => (n :: r.1, r.2)) := by
  simp [parseStringBody, h]

theorem parseStringBody_escape :
    ∀ (s : Str) (fuel : Nat) (rest : Str), ValidStr s → s.length + 1 ≤ fuel →
      parseStringBody fuel (escapeStr s ++ 34 :: rest) = some (s, rest) := by
  intro s
  induction s with
  | nil =>
    intro fuel rest _ hfuel
    obtain ⟨f, rfl⟩ : ∃ f, fuel = f + 1 := ⟨fuel - 1, by omega⟩
    rw [show escapeStr [] ++ 34 :: rest = 34 :: rest from rfl]
    exact parseStringBody_quote f rest
  | cons c s ih =>
    intro fuel rest hs hfuel
    obtain ⟨f, rfl⟩ : ∃ f, fuel = f + 1 := ⟨fuel - 1, by omega⟩
    have hc : ValidCp c := hs c (by simp)
    have hs' : ValidStr s := fun x hx => hs x (by simp [hx])
    have hf : s.length + 1 ≤ f := by simp at hfuel; omega
    have ihe := ih f rest hs' hf
    rw [show escapeStr (c :: s) = escapeCp c ++ escapeStr s from rfl, List.append_assoc]
    by_cases h34 : c = 34
    · subst h34
      rw [show escapeCp 34 = [92, 34] from rfl]
      simp only [List.cons_append, List.nil_append]
      rw [parseStringBody_e34 f _, ihe]
      rfl
    by_cases h92 : c = 92
    · subst h92
      rw [show escapeCp 92 = [92, 92] from rfl]
      simp only [List.cons_append, List.nil_append]
      rw [parseStringBody_e92 f _, ihe]
      rfl
    by_cases h8 : c = 8
    · subst h8
      rw [show escapeCp 8 = [92, 98] from rfl]
      simp only [List.cons_append, List.nil_append]
      rw [parseStringBody_e98 f _, ihe]
      rfl
    by_cases h9 : c = 9
    · subst h9
      rw [show escapeCp 9 = [92, 116] from rfl]
      simp only [List.cons_append, List.nil_append]
      rw [parseStringBody_e116 f _, ihe]
      rfl
    by_cases h10 : c = 10
    · subst h10
      rw [show escapeCp 10 = [92, 110] from rfl]
      simp only [List.cons_append, List.nil_append]
      rw [parseStringBody_e110 f _, ihe]
      rfl
    by_cases h12 : c = 12
    · subst h12
      rw [show escapeCp 12 = [92, 102] from rfl]
      simp only [List.cons_append, List.nil_append]
      rw [parseStringBody_e102 f _, ihe]
      rfl
    by_cases h13 : c = 13
    · subst h13
      rw [show escapeCp 13 = [92, 114] from rfl]
      simp only [List.cons_append, List.nil_append]
      rw [parseStringBody_e114 f _, ihe]
      rfl
    by_cases hlit : 32 ≤ c ∧ c ≤ 126
    · have hn32 : ¬c < 32 := by omega
      have hec : escapeCp c = [c] := by
        simp [escapeCp, h34, h92, h8, h9, h10, h12, h13, hlit]
      rw [hec]
      simp only [List.cons_append, List.nil_append]
      rw [parseStringBody_lit f c _ h34 h92 hn32, ihe]
      rfl
    by_cases hbmp : c < 65536
    · have hnsur : ¬(55296 ≤ c ∧ c < 56320) := by
        rcases hc with ⟨_, h2⟩; omega
      have hec : escapeCp c = [92, 117] ++ hex4 c := by
        simp [escapeCp, h34, h92, h8, h9, h10, h12, h13, hlit, hbmp]
      have hu := parseUEscape_hex4 c hbmp hnsur (escapeStr s ++ 34 :: rest)
      rw [hec]
      simp only [List.append_assoc, List.cons_append, List.nil_append]
      rw [parseStringBody_u f _ _ _ hu, ihe]
      rfl
    · have hec : escapeCp c = [92, 117] ++ hex4 (55296 + (c - 65536) / 1024) ++
          [92, 117] ++ hex4 (56320 + (c - 65536) % 1024) := by
        simp [escapeCp, h34, h92, h8, h9, h10, h12, h13, hlit, hbmp]
      have hu := parseUEscape_pair c (by omega) hc.1 (escapeStr s ++ 34 :: rest)
      rw [hec]
      simp only [List.append_assoc, List.cons_append, List.nil_append]
      rw [parseStringBody_u f _ _ _ hu, ihe]
      rfl

theorem escapeCp_length (n : Nat) : 1 ≤ (escapeCp n).length := by
  unfold escapeCp
  split_ifs <;> simp

theorem escapeStr_length (s : Str) : s.length ≤ (escapeStr s).length := by
  induction s with
  | nil => simp [escapeStr]
  | cons c s ih =>
    have := escapeCp_length c
    simp only [escapeStr, List.length_append, List.length_cons]
    omega

theorem dumpsMembers_length (l : Event) : l.length ≤ (dumpsMembers l).length := by
  induction l with
  | nil => simp [dumpsMembers]
  | cons kv tl ih =>
    obtain ⟨k, v⟩ := kv
    cases tl with
    | nil => simp [dumpsMembers]
    | cons kv2 tl2 =>
      rw [show dumpsMembers ((k, v) :: kv2 :: tl2) =
          memberStr k v ++ 44 :: 32 :: dumpsMembers (kv2 :: tl2) from rfl]
      simp only [List.length_append, List.length_cons] at ih ⊢
      omega

theorem skipWs_no (c : Nat) (cs : Str) (h : ¬(c = 32 ∨ c = 9 ∨ c = 10 ∨ c = 13)) :
    skipWs (c :: cs) = c :: cs := by
  simp [skipWs, h]

theorem skipWs_32 (cs : Str) : skipWs (32 :: cs) = skipWs cs := by
  simp [skipWs]

theorem parseMembers_more (fuel : Nat) (s s1 s2 s3 s4 s5 s6 : Str) (k v : Str)
    (h0 : skipWs s = 34 :: s1)
    (h1 : parseStringBody (s1.length + 1) s1 = some (k, s2))
    (h2 : skipWs s2 = 58 :: s3)
    (h3 : skipWs s3 = 34 :: s4)
    (h4 : parseStringBody (s4.length + 1) s4 = some (v, s5))
    (h5 : skipWs s5 = 44 :: s6) :
    parseMembers (fuel + 1) s = (parseMembers fuel s6).map (fun r => ((k, v) :: r.1, r.2)) := by
  simp [parseMembers, h0, h1, h2, h3, h4, h5]

theorem parseMembers_last (fuel : Nat) (s s1 s2 s3 s4 s5 s6 : Str) (k v : Str)
    (h0 : skipWs s = 34 :: s1)
    (h1 : parseStringBody (s1.length + 1) s1 = some (k, s2))
    (h2 : skipWs s2 = 58 :: s3)
    (h3 : skipWs s3 = 34 :: s4)
    (h4 : parseStringBody (s4.length + 1) s4 = some (v, s5))
    (h5 : skipWs s5 = 125 :: s6) :
    parseMembers (fuel + 1) s = some ([(k, v)], s6) := by
  simp [parseMembers, h0, h1, h2, h3, h4, h5]

theorem parseMembers_ws (fuel : Nat) (y : Str) :
    parseMembers (fuel + 1) (32 :: y) = parseMembers (fuel + 1) y := by
  simp [parseMembers, skipWs_32]

theorem parseMembers_dumpsMembers :
    ∀ (l : Event) (fuel : Nat), ValidEvent l → l ≠ [] → l.length ≤ fuel →
      parseMembers fuel (dumpsMembers l) = some (l, []) := by
  intro l
  induction l with
  | nil => intro fuel _ hne _; exact absurd rfl hne
  | cons kv tl ih =>
    obtain ⟨k, v⟩ := kv
    intro fuel hval hne hfuel
    obtain ⟨f, rfl⟩ : ∃ f, fuel = f + 1 := ⟨fuel - 1, by simp at hfuel; omega⟩
    have hk : ValidStr k := (hval (k, v) (by simp)).1
    have hv : ValidStr v := (hval (k, v) (by simp)).2
    cases tl with
    | nil =>
      have hshape : dumpsMembers [(k, v)] =
          34 :: (escapeStr k ++ 34 :: 58 :: 32 :: 34 :: (escapeStr v ++ 34 :: [125])) := by
        rw [show dumpsMembers [(k, v)] = memberStr k v ++ [125] from rfl]
        simp [memberStr, quoteStr]
      rw [hshape]
      have h0 : skipWs (34 :: (escapeStr k ++ 34 :: 58 :: 32 :: 34 ::
          (escapeStr v ++ 34 :: [125]))) =
          34 :: (escapeStr k ++ 34 :: 58 :: 32 :: 34 :: (escapeStr v ++ 34 :: [125])) :=
        skipWs_no 34 _ (by decide)
      have h1 : parseStringBody
          ((escapeStr k ++ 34 :: 58 :: 32 :: 34 :: (escapeStr v ++ 34 :: [125])).length + 1)
          (escapeStr k ++ 34 :: 58 :: 32 :: 34 :: (escapeStr v ++ 34 :: [125])) =
          some (k, 58 :: 32 :: 34 :: (escapeStr v ++ 34 :: [125])) := by
        apply parseStringBody_escape k _ _ hk
        have := escapeStr_length k
        simp only [List.length_append, List.length_cons]
        omega
      have h2 : skipWs (58 :: 32 :: 34 :: (escapeStr v ++ 34 :: [125])) =
          58 :: (32 :: 34 :: (escapeStr v ++ 34 :: [125])) :=
        skipWs_no 58 _ (by decide)
      have h3 : skipWs (32 :: 34 :: (escapeStr v ++ 34 :: [125])) =
          34 :: (escapeStr v ++ 34 :: [125]) := by
        rw [skipWs_32]
        exact skipWs_no 34 _ (by decide)
      have h4 : parseStringBody ((escapeStr v ++ 34 :: [125]).length + 1)
          (escapeStr v ++ 34 :: [125]) = some (v, [125]) := by
        apply parseStringBody_escape v _ _ hv
        have := escapeStr_length v
        simp only [List.length_append, List.length_cons]
        omega
      have h5 : skipWs [125] = 125 :: ([] : Str) := skipWs_no 125 [] (by decide)
      exact parseMembers_last f _ _ _ _ _ _ _ k v h0 h1 h2 h3 h4 h5
    | cons kv2 tl2 =>
      have hshape : dumpsMembers ((k, v) :: kv2 :: tl2) =
          34 :: (escapeStr k ++ 34 :: 58 :: 32 :: 34 ::
            (escapeStr v ++ 34 :: 44 :: 32 :: dumpsMembers (kv2 :: tl2))) := by
        rw [show dumpsMembers ((k, v) :: kv2 :: tl2) =
            memberStr k v ++ 44 :: 32 :: dumpsMembers (kv2 :: tl2) from rfl]
        simp [memberStr, quoteStr]
      rw [hshape]
      have h0 : skipWs (34 :: (escapeStr k ++ 34 :: 58 :: 32 :: 34 ::
          (escapeStr v ++ 34 :: 44 :: 32 :: dumpsMembers (kv2 :: tl2)))) =
          34 :: (escapeStr k ++ 34 :: 58 :: 32 :: 34 ::
            (escapeStr v ++ 34 :: 44 :: 32 :: dumpsMembers (kv2 :: tl2))) :=
        skipWs_no 34 _ (by decide)
      have h1 : parseStringBody
          ((escapeStr k ++ 34 :: 58 :: 32 :: 34 ::
            (escapeStr v ++ 34 :: 44 :: 32 :: dumpsMembers (kv2 :: tl2))).length + 1)
          (escapeStr k ++ 34 :: 58 :: 32 :: 34 ::
            (escapeStr v ++ 34 :: 44 :: 32 :: dumpsMembers (kv2 :: tl2))) =
          some (k, 58 :: 32 :: 34 :: (escapeStr v ++ 34 :: 44 :: 32 ::
            dumpsMembers (kv2 :: tl2))) := by
        apply parseStringBody_escape k _ _ hk
        have := escapeStr_length k
        simp only [List.length_append, List.length_cons]
        omega
      have h2 : skipWs (58 :: 32 :: 34 ::
          (escapeStr v ++ 34 :: 44 :: 32 :: dumpsMembers (kv2 :: tl2))) =
          58 :: (32 :: 34 :: (escapeStr v ++ 34 :: 44 :: 32 :: dumpsMembers (kv2 :: tl2))) :=
        skipWs_no 58 _ (by decide)
      have h3 : skipWs (32 :: 34 ::
          (escapeStr v ++ 34 :: 44 :: 32 :: dumpsMembers (kv2 :: tl2))) =
          34 :: (escapeStr v ++ 34 :: 44 :: 32 :: dumpsMembers (kv2 :: tl2)) := by
        rw [skipWs_32]
        exact skipWs_no 34 _ (by decide)
      have h4 : parseStringBody
          ((escapeStr v ++ 34 :: 44 :: 32 :: dumpsMembers (kv2 :: tl2)).length + 1)
          (escapeStr v ++ 34 :: 44 :: 32 :: dumpsMembers (kv2 :: tl2)) =
          some (v, 44 :: 32 :: dumpsMembers (kv2 :: tl2)) := by
        apply parseStringBody_escape v _ _ hv
        have := escapeStr_length v
        simp only [List.length_append, List.length_cons]
        omega
      have h5 : skipWs (44 :: 32 :: dumpsMembers (kv2 :: tl2)) =
          44 :: (32 :: dumpsMembers (kv2 :: tl2)) :=
        skipWs_no 44 _ (by decide)
      rw [parseMembers_more f _ _ _ _ _ _ _ k v h0 h1 h2 h3 h4 h5]
      obtain ⟨f2, rfl⟩ : ∃ f2, f = f2 + 1 := ⟨f - 1, by simp at hfuel; omega⟩
      rw [parseMembers_ws f2 (dumpsMembers (kv2 :: tl2))]
      rw [ih (f2 + 1) (fun kv hkv => hval kv (by simp [hkv])) (by simp)
        (by simp at hfuel; simp; omega)]
      rfl

theorem dumpsMembers_cons_head (k v : Str) (tl : Event) :
    ∃ t, dumpsMembers ((k, v) :: tl) = 34 :: t := by
  cases tl with
  | nil =>
    refine ⟨escapeStr k ++ 34 :: 58 :: 32 :: 34 :: (escapeStr v ++ 34 :: [125]), ?_⟩
    rw [show dumpsMembers [(k, v)] = memberStr k v ++ [125] from rfl]
    simp [memberStr, quoteStr]
  | cons kv2 tl2 =>
    refine ⟨escapeStr k ++ 34 :: 58 :: 32 :: 34 ::
      (escapeStr v ++ 34 :: 44 :: 32 :: dumpsMembers (kv2 :: tl2)), ?_⟩
    rw [show dumpsMembers ((k, v) :: kv2 :: tl2) =
        memberStr k v ++ 44 :: 32 :: dumpsMembers (kv2 :: tl2) from rfl]
    simp [memberStr, quoteStr]

theorem loads_members (bytes text s1t : List Nat) (e : Event)
    (hdec : utf8Decode bytes = some text)
    (h0 : skipWs text = 123 :: 34 :: s1t)
    (h2 : parseMembers ((34 :: s1t).length + 1) (34 :: s1t) = some (e, [])) :
    loads bytes = some e := by
  simp only [List.length_cons] at h2
  simp [loads, skipWs, hdec, h0, h2]

/-- Round trip of the codec underlying the producer: decoding the value
serializer's bytes with `json.loads` returns the dict that was serialized,
for every dict of valid Unicode strings. -/
theorem loads_dumps (e : Event) (he : ValidEvent e) : loads (utf8Encode (dumps e)) = some e := by
  have hascii := dumps_ascii e
  have henc : utf8Encode (dumps e) = dumps e := utf8Encode_ascii _ hascii
  have hdec : utf8Decode (utf8Encode (dumps e)) = some (dumps e) := by
    rw [henc]
    exact utf8Decode_ascii _ hascii
  cases e with
  | nil =>
    rw [henc]
    decide
  | cons kv tl =>
    obtain ⟨k, v⟩ := kv
    obtain ⟨t, ht⟩ := dumpsMembers_cons_head k v tl
    apply loads_members _ (dumps ((k, v) :: tl)) t ((k, v) :: tl) hdec
    · rw [show dumps ((k, v) :: tl) = 123 :: dumpsMembers ((k, v) :: tl) from rfl,
        skipWs_no 123 _ (by decide), ht]
    · rw [← ht]
      apply parseMembers_dumpsMembers ((k, v) :: tl) _ he (by simp)
      have hlen := dumpsMembers_length ((k, v) :: tl)
      simp only [List.length_cons] at hlen ⊢
      omega

theorem sentRecords_append (a b : List Effect) :
    sentRecords (a ++ b) = sentRecords a ++ sentRecords b :=
  List.filterMap_append a b _

theorem sentRecords_send1 (p : Nat) (env : SendEnv) (email userName : Str) :
    sentRecords (sendNewUserRegistered p env email userName).1 =
      [(p, lit "notification.requests",
        getField (newUserRegisteredEvent env.tA env.uA env.uB email userName) (lit "eventId"),
        newUserRegisteredEvent env.tA env.uA env.uB email userName)] := by
  rcases env with ⟨tA, tB, uA, uB, uC, uD, outcome⟩
  cases outcome <;> rfl

theorem sentRecords_send2 (p : Nat) (env : SendEnv) (email : Str) :
    sentRecords (sendPasswordResetRequested p env email).1 =
      [(p, lit "notification.requests",
        getField (passwordResetRequestedEvent env.tA env.tB env.uA env.uB env.uC email)
          (lit "eventId"),
        passwordResetRequestedEvent env.tA env.tB env.uA env.uB env.uC email)] := by
  rcases env with ⟨tA, tB, uA, uB, uC, uD, outcome⟩
  cases outcome <;> rfl

theorem sentRecords_send3 (p : Nat) (env : SendEnv) (email productName : Str) :
    sentRecords (sendPurchaseSlotAcquired p env email productName).1 =
      [(p, lit "notification.requests",
        getField (purchaseSlotAcquiredEvent env.tA env.tB env.uA env.uB env.uC env.uD email
          productName) (lit "eventId"),
        purchaseSlotAcquiredEvent env.tA env.tB env.uA env.uB env.uC env.uD email productName)] := by
  rcases env with ⟨tA, tB, uA, uB, uC, uD, outcome⟩
  cases outcome <;> rfl

theorem sentRecords_menu (it : IterInput) : sentRecords (menuEffects it) = [] := rfl

theorem sentRecords_finishTry (tr : List Effect) (r : SendResult) :
    sentRecords (finishTry tr r).1 = sentRecords tr := by
  cases r <;> simp [finishTry, sentRecords_append] <;> rfl

theorem sentRecords_mainStartup (connect : Except Str Nat) :
    sentRecords (mainStartup connect).1 = [] := by
  cases connect <;> rfl

theorem mainIteration_records_ok (p : Nat) (it : IterInput) :
    (sentRecords (mainIteration p it).1).all
      (fun r => r.1 == p && r.2.1 == lit "notification.requests") = true := by
  rcases it with ⟨choice, emailIn, nameIn, prodIn, env1, env2, env3⟩
  by_cases h1 : choice = lit "1"
  · rcases env1 with ⟨a1, b1, c1, d1, e1, f1, o1⟩
    cases o1 <;>
      simp [mainIteration, if_pos h1, menuEffects, finishTry, sendNewUserRegistered, sentRecords]
  by_cases h2 : choice = lit "2"
  · rcases env1 with ⟨a1, b1, c1, d1, e1, f1, o1⟩
    cases o1 <;>
      simp [mainIteration, if_neg h1, if_pos h2, menuEffects, finishTry,
        sendPasswordResetRequested, sentRecords]
  by_cases h3 : choice = lit "3"
  · rcases env1 with ⟨a1, b1, c1, d1, e1, f1, o1⟩
    cases o1 <;>
      simp [mainIteration, if_neg h1, if_neg h2, if_pos h3, menuEffects, finishTry,
        sendPurchaseSlotAcquired, sentRecords]
  by_cases h4 : choice = lit "4"
  · rcases env1 with ⟨a1, b1, c1, d1, e1, f1, o1⟩
    cases o1 with
    | ok ack1 =>
      rcases env2 with ⟨a2, b2, c2, d2, e2, f2, o2⟩
      cases o2 with
      | ok ack2 =>
        rcases env3 with ⟨a3, b3, c3, d3, e3, f3, o3⟩
        cases o3 <;>
          simp [mainIteration, if_neg h1, if_neg h2, if_neg h3, if_pos h4, menuEffects,
            finishTry, sendNewUserRegistered, sendPasswordResetRequested,
            sendPurchaseSlotAcquired, sentRecords]
      | error msg =>
        simp [mainIteration, if_neg h1, if_neg h2, if_neg h3, if_pos h4, menuEffects,
          finishTry, sendNewUserRegistered, sendPasswordResetRequested, sentRecords]
      | interrupt =>
        simp [mainIteration, if_neg h1, if_neg h2, if_neg h3, if_pos h4, menuEffects,
          finishTry, sendNewUserRegistered, sendPasswordResetRequested, sentRecords]
    | error msg =>
      simp [mainIteration, if_neg h1, if_neg h2, if_neg h3, if_pos h4, menuEffects,
        finishTry, sendNewUserRegistered, sentRecords]
    | interrupt =>
      simp [mainIteration, if_neg h1, if_neg h2, if_neg h3, if_pos h4, menuEffects,
        finishTry, sendNewUserRegistered, sentRecords]
  by_cases hq : lowerStr choice = lit "q"
  · simp [mainIteration, if_neg h1, if_neg h2, if_neg h3, if_neg h4, if_pos hq, menuEffects,
      sentRecords]
  · simp [mainIteration, if_neg h1, if_neg h2, if_neg h3, if_neg h4, if_neg hq, menuEffects,
      sentRecords]

theorem mainIteration_records_mem (p : Nat) (it : IterInput) :
    ∀ r ∈ sentRecords (mainIteration p it).1,
      r.1 = p ∧ r.2.1 = lit "notification.requests" := by
  have h := List.all_eq_true.mp (mainIteration_records_ok p it)
  intro r hr
  have hp := h r hr
  simp only [Bool.and_eq_true, beq_iff_eq] at hp
  exact hp

theorem runLoop_records_mem (p : Nat) (iters : List IterInput) :
    ∀ r ∈ sentRecords (runLoop p iters),
      r.1 = p ∧ r.2.1 = lit "notification.requests" := by
  induction iters with
  | nil => intro r hr; simp [runLoop, sentRecords] at hr
  | cons it rest ih =>
    intro r hr
    have hmem := mainIteration_records_mem p it
    rcases hmi : mainIteration p it with ⟨tr, c⟩
    rw [hmi] at hmem
    simp only [runLoop, hmi] at hr
    cases c with
    | stop =>
      rw [sentRecords_append] at hr
      rcases List.mem_append.mp hr with hr2 | hr2
      · exact hmem r hr2
      · simp [sentRecords] at hr2
    | next =>
      rw [sentRecords_append] at hr
      rcases List.mem_append.mp hr with hr2 | hr2
      · exact hmem r hr2
      · exact ih r hr2

theorem runScript_records_mem (p : Nat) (iters : List IterInput) :
    ∀ r ∈ sentRecords (runScript (.ok p) iters),
      r.1 = p ∧ r.2.1 = lit "notification.requests" := by
  intro r hr
  rw [show runScript (.ok p) iters = (mainStartup (.ok p)).1 ++ runLoop p iters from rfl,
    sentRecords_append, sentRecords_mainStartup (.ok p)] at hr
  simp only [List.nil_append] at hr
  exact runLoop_records_mem p iters r hr

theorem mainIteration_count_le (p : Nat) (it : IterInput) :
    (sentRecords (mainIteration p it).1).length ≤ 3 := by
  rcases it with ⟨choice, emailIn, nameIn, prodIn, env1, env2, env3⟩
  by_cases h1 : choice = lit "1"
  · rcases env1 with ⟨a1, b1, c1, d1, e1, f1, o1⟩
    cases o1 <;>
      simp [mainIteration, if_pos h1, menuEffects, finishTry, sendNewUserRegistered, sentRecords]
  by_cases h2 : choice = lit "2"
  · rcases env1 with ⟨a1, b1, c1, d1, e1, f1, o1⟩
    cases o1 <;>
      simp [mainIteration, if_neg h1, if_pos h2, menuEffects, finishTry,
        sendPasswordResetRequested, sentRecords]
  by_cases h3 : choice = lit "3"
  · rcases env1 with ⟨a1, b1, c1, d1, e1, f1, o1⟩
    cases o1 <;>
      simp [mainIteration, if_neg h1, if_neg h2, if_pos h3, menuEffects, finishTry,
        sendPurchaseSlotAcquired, sentRecords]
  by_cases h4 : choice = lit "4"
  · rcases env1 with ⟨a1, b1, c1, d1, e1, f1, o1⟩
    cases o1 with
    | ok ack1 =>
      rcases env2 with ⟨a2, b2, c2, d2, e2, f2, o2⟩
      cases o2 with
      | ok ack2 =>
        rcases env3 with ⟨a3, b3, c3, d3, e3, f3, o3⟩
        cases o3 <;>
          simp [mainIteration, if_neg h1, if_neg h2, if_neg h3, if_pos h4, menuEffects,
            finishTry, sendNewUserRegistered, sendPasswordResetRequested,
            sendPurchaseSlotAcquired, sentRecords]
      | error msg =>
        simp [mainIteration, if_neg h1, if_neg h2, if_neg h3, if_pos h4, menuEffects,
          finishTry, sendNewUserRegistered, sendPasswordResetRequested, sentRecords]
      | interrupt =>
        simp [mainIteration, if_neg h1, if_neg h2, if_neg h3, if_pos h4, menuEffects,
          finishTry, sendNewUserRegistered, sendPasswordResetRequested, sentRecords]
    | error msg =>
      simp [mainIteration, if_neg h1, if_neg h2, if_neg h3, if_pos h4, menuEffects,
        finishTry, sendNewUserRegistered, sentRecords]
    | interrupt =>
      simp [mainIteration, if_neg h1, if_neg h2, if_neg h3, if_pos h4, menuEffects,
        finishTry, sendNewUserRegistered, sentRecords]
  by_cases hq : lowerStr choice = lit "q"
  · simp [mainIteration, if_neg h1, if_neg h2, if_neg h3, if_neg h4, if_pos hq, menuEffects,
      sentRecords]
  · simp [mainIteration, if_neg h1, if_neg h2, if_neg h3, if_neg h4, if_neg hq, menuEffects,
      sentRecords]

theorem mainIteration_count1 (p : Nat) (it : IterInput) (h : it.choice = lit "1") :
    (sentRecords (mainIteration p it).1).length = 1 := by
  rcases it with ⟨choice, emailIn, nameIn, prodIn, env1, env2, env3⟩
  rcases env1 with ⟨a1, b1, c1, d1, e1, f1, o1⟩
  cases o1 <;>
    simp [mainIteration, if_pos h, menuEffects, finishTry, sendNewUserRegistered, sentRecords]

theorem mainIteration_count2 (p : Nat) (it : IterInput) (h1 : ¬it.choice = lit "1")
    (h2 : it.choice = lit "2") :
    (sentRecords (mainIteration p it).1).length = 1 := by
  rcases it with ⟨choice, emailIn, nameIn, prodIn, env1, env2, env3⟩
  rcases env1 with ⟨a1, b1, c1, d1, e1, f1, o1⟩
  cases o1 <;>
    simp [mainIteration, if_neg h1, if_pos h2, menuEffects, finishTry,
      sendPasswordResetRequested, sentRecords]

theorem mainIteration_count3 (p : Nat) (it : IterInput) (h1 : ¬it.choice = lit "1")
    (h2 : ¬it.choice = lit "2") (h3 : it.choice = lit "3") :
    (sentRecords (mainIteration p it).1).length = 1 := by
  rcases it with ⟨choice, emailIn, nameIn, prodIn, env1, env2, env3⟩
  rcases env1 with ⟨a1, b1, c1, d1, e1, f1, o1⟩
  cases o1 <;>
    simp [mainIteration, if_neg h1, if_neg h2, if_pos h3, menuEffects, finishTry,
      sendPurchaseSlotAcquired, sentRecords]

/-- Concrete send environment for evaluating theorems on closed inputs:
epoch instants, empty uuid draws, and a successful acknowledgement. -/
def sampleEnv : SendEnv := ⟨0, 0, [], [], [], [], .ok ⟨0, 0⟩⟩

/-- Concrete loop pass choosing menu entry 1 with empty prompt answers. -/
def sampleIter : IterInput := ⟨lit "1", [], [], [], sampleEnv, sampleEnv, sampleEnv⟩

/-- Concrete send environment whose blocking wait raises an exception. -/
def sampleErrEnv : SendEnv := ⟨0, 0, [], [], [], [], .error (lit "boom")⟩

/-- Concrete loop pass choosing menu entry 1 whose send fails. -/
def sampleErrIter : IterInput := ⟨lit "1", [], [], [], sampleErrEnv, sampleEnv, sampleEnv⟩

/-- C1: every event the program publishes is a JSON object with exactly the
required keys for its event type, in wire order — eventId, eventType,
occurredAt, userId plus email and userName for NEW_USER_REGISTERED; plus
email, resetToken and expiresAt for PASSWORD_RESET_REQUESTED; plus email,
slotId, productId, productName and expiresAt for PURCHASE_SLOT_ACQUIRED —
its eventType is the matching member of the closed three-value enumeration,
and each send operation publishes exactly the event dict it builds (all of
whose values are strings by construction of `Event`). -/
theorem claimC1_event_shape (p t1 t2 : Nat) (env : SendEnv)
    (u1 u2 u3 u4 email userName productName : Str) :
    ((newUserRegisteredEvent t1 u1 u2 email userName).map Prod.fst =
      [lit "eventId", lit "eventType", lit "occurredAt", lit "userId", lit "email",
       lit "userName"] ∧
     getField (newUserRegisteredEvent t1 u1 u2 email userName) (lit "eventType") =
       some (lit "NEW_USER_REGISTERED")) ∧
    ((passwordResetRequestedEvent t1 t2 u1 u2 u3 email).map Prod.fst =
      [lit "eventId", lit "eventType", lit "occurredAt", lit "userId", lit "email",
       lit "resetToken", lit "expiresAt"] ∧
     getField (passwordResetRequestedEvent t1 t2 u1 u2 u3 email) (lit "eventType") =
       some (lit "PASSWORD_RESET_REQUESTED")) ∧
    ((purchaseSlotAcquiredEvent t1 t2 u1 u2 u3 u4 email productName).map Prod.fst =
      [lit "eventId", lit "eventType", lit "occurredAt", lit "userId", lit "email",
       lit "slotId", lit "productId", lit "productName", lit "expiresAt"] ∧
     getField (purchaseSlotAcquiredEvent t1 t2 u1 u2 u3 u4 email productName)
       (lit "eventType") = some (lit "PURCHASE_SLOT_ACQUIRED")) ∧
    (getField (newUserRegisteredEvent t1 u1 u2 email userName) (lit "eventType") ∈
      [some (lit "NEW_USER_REGISTERED"), some (lit "PASSWORD_RESET_REQUESTED"),
       some (lit "PURCHASE_SLOT_ACQUIRED")] ∧
     getField (passwordResetRequestedEvent t1 t2 u1 u2 u3 email) (lit "eventType") ∈
      [some (lit "NEW_USER_REGISTERED"), some (lit "PASSWORD_RESET_REQUESTED"),
       some (lit "PURCHASE_SLOT_ACQUIRED")] ∧
     getField (purchaseSlotAcquiredEvent t1 t2 u1 u2 u3 u4 email productName)
       (lit "eventType") ∈
      [some (lit "NEW_USER_REGISTERED"), some (lit "PASSWORD_RESET_REQUESTED"),
       some (lit "PURCHASE_SLOT_ACQUIRED")]) ∧
    ((sentRecords (sendNewUserRegistered p env email userName).1).map (fun r => r.2.2.2) =
      [newUserRegisteredEvent env.tA env.uA env.uB email userName] ∧
     (sentRecords (sendPasswordResetRequested p env email).1).map (fun r => r.2.2.2) =
      [passwordResetRequestedEvent env.tA env.tB env.uA env.uB env.uC email] ∧
     (sentRecords (sendPurchaseSlotAcquired p env email productName).1).map
       (fun r => r.2.2.2) =
      [purchaseSlotAcquiredEvent env.tA env.tB env.uA env.uB env.uC env.uD email
        productName]) := by
  refine ⟨⟨rfl, rfl⟩, ⟨rfl, rfl⟩, ⟨rfl, rfl⟩,
    ⟨List.mem_cons_self _ _, List.mem_cons_of_mem _ (List.mem_cons_self _ _),
     List.mem_cons_of_mem _ (List.mem_cons_of_mem _ (List.mem_cons_self _ _))⟩, ?_, ?_, ?_⟩
  · rw [sentRecords_send1]; rfl
  · rw [sentRecords_send2]; rfl
  · rw [sentRecords_send3]; rfl

/-- C2: serialization round-trips — `json.loads` applied to the value
serializer's output (`json.dumps(e)` encoded as UTF-8) returns the original
event, for every event dict whose keys and values are valid Unicode
strings. -/
theorem claimC2_roundtrip (bs : Str) (e : Event) (he : ValidEvent e) :
    loads ((createProducer bs).valueSerializer e) = some e :=
  loads_dumps e he

/-- Witness evaluating the round trip on a closed event with a Korean value,
an escape-needing value and an astral code point. -/
theorem claimC2_roundtrip_witness :
    ValidEvent [(lit "eventId", lit "evt-1"), (lit "userName", lit "홍길동\"\\"), (lit "e", [128512])] ∧
    loads ((createProducer (lit "localhost:9092")).valueSerializer
        [(lit "eventId", lit "evt-1"), (lit "userName", lit "홍길동\"\\"), (lit "e", [128512])]) =
      some [(lit "eventId", lit "evt-1"), (lit "userName", lit "홍길동\"\\"), (lit "e", [128512])] :=
  ⟨by decide, claimC2_roundtrip (lit "localhost:9092") _ (by decide)⟩

/-- C5: every published message is keyed by the event's own eventId — for
each of the three send operations, the key passed to `producer.send` is the
eventId field of the event being sent, and the key serializer encodes that
key as its UTF-8 bytes. -/
theorem claimC5_key_is_eventId (p : Nat) (env : SendEnv) (bs email userName productName : Str) :
    (sentRecords (sendNewUserRegistered p env email userName).1 =
      [(p, lit "notification.requests",
        getField (newUserRegisteredEvent env.tA env.uA env.uB email userName) (lit "eventId"),
        newUserRegisteredEvent env.tA env.uA env.uB email userName)] ∧
     getField (newUserRegisteredEvent env.tA env.uA env.uB email userName) (lit "eventId") =
       some (lit "evt-" ++ env.uA) ∧
     (createProducer bs).keySerializer
       (getField (newUserRegisteredEvent env.tA env.uA env.uB email userName)
         (lit "eventId")) = some (utf8Encode (lit "evt-" ++ env.uA))) ∧
    (sentRecords (sendPasswordResetRequested p env email).1 =
      [(p, lit "notification.requests",
        getField (passwordResetRequestedEvent env.tA env.tB env.uA env.uB env.uC email)
          (lit "eventId"),
        passwordResetRequestedEvent env.tA env.tB env.uA env.uB env.uC email)] ∧
     getField (passwordResetRequestedEvent env.tA env.tB env.uA env.uB env.uC email)
       (lit "eventId") = some (lit "evt-" ++ env.uA) ∧
     (createProducer bs).keySerializer
       (getField (passwordResetRequestedEvent env.tA env.tB env.uA env.uB env.uC email)
         (lit "eventId")) = some (utf8Encode (lit "evt-" ++ env.uA))) ∧
    (sentRecords (sendPurchaseSlotAcquired p env email productName).1 =
      [(p, lit "notification.requests",
        getField (purchaseSlotAcquiredEvent env.tA env.tB env.uA env.uB env.uC env.uD email
          productName) (lit "eventId"),
        purchaseSlotAcquiredEvent env.tA env.tB env.uA env.uB env.uC env.uD email
          productName)] ∧
     getField (purchaseSlotAcquiredEvent env.tA env.tB env.uA env.uB env.uC env.uD email
       productName) (lit "eventId") = some (lit "evt-" ++ env.uA) ∧
     (createProducer bs).keySerializer
       (getField (purchaseSlotAcquiredEvent env.tA env.tB env.uA env.uB env.uC env.uD email
         productName) (lit "eventId")) = some (utf8Encode (lit "evt-" ++ env.uA))) :=
  ⟨⟨sentRecords_send1 p env email userName, rfl, rfl⟩,
   ⟨sentRecords_send2 p env email, rfl, rfl⟩,
   ⟨sentRecords_send3 p env email productName, rfl, rfl⟩⟩

/-- C6: every event constructed by `send_purchase_slot_acquired` has
eventType PURCHASE_SLOT_ACQUIRED and an expiresAt timestamp exactly
`timedelta(minutes=30)` — thirty minutes in microseconds — after the
`datetime.utcnow()` reading taken for it during construction, and the send
publishes exactly that event. -/
theorem claimC6_purchase_expiry (p t1 t2 : Nat) (env : SendEnv)
    (u1 u2 u3 u4 email productName : Str) :
    getField (purchaseSlotAcquiredEvent t1 t2 u1 u2 u3 u4 email productName)
      (lit "eventType") = some (lit "PURCHASE_SLOT_ACQUIRED") ∧
    getField (purchaseSlotAcquiredEvent t1 t2 u1 u2 u3 u4 email productName)
      (lit "expiresAt") = some (isoZ (t2 + thirtyMinutes)) ∧
    thirtyMinutes = 30 * 60 * 1000000 ∧
    (sentRecords (sendPurchaseSlotAcquired p env email productName).1).map
      (fun r => r.2.2.2) =
      [purchaseSlotAcquiredEvent env.tA env.tB env.uA env.uB env.uC env.uD email
        productName] := by
  refine ⟨rfl, rfl, rfl, ?_⟩
  rw [sentRecords_send3]; rfl

/-- C10: in both events that carry an expiresAt field the expiry instant is
strictly later than the occurredAt instant — occurredAt renders the first
`datetime.utcnow()` reading of the construction, expiresAt renders the
second reading plus one hour (password reset) or thirty minutes (purchase
slot), and under a monotone clock (the second reading not earlier than the
first) the expiry instant strictly exceeds the occurredAt instant. -/
theorem claimC10_expiry_after_occurred (t1 t2 : Nat) (h : t1 ≤ t2)
    (u1 u2 u3 u4 email productName : Str) :
    (getField (passwordResetRequestedEvent t1 t2 u1 u2 u3 email) (lit "occurredAt") =
       some (isoZ t1) ∧
     getField (passwordResetRequestedEvent t1 t2 u1 u2 u3 email) (lit "expiresAt") =
       some (isoZ (t2 + oneHour)) ∧
     oneHour = 60 * 60 * 1000000 ∧
     t1 < t2 + oneHour) ∧
    (getField (purchaseSlotAcquiredEvent t1 t2 u1 u2 u3 u4 email productName)
       (lit "occurredAt") = some (isoZ t1) ∧
     getField (purchaseSlotAcquiredEvent t1 t2 u1 u2 u3 u4 email productName)
       (lit "expiresAt") = some (isoZ (t2 + thirtyMinutes)) ∧
     thirtyMinutes = 30 * 60 * 1000000 ∧
     t1 < t2 + thirtyMinutes) :=
  ⟨⟨rfl, rfl, rfl, by unfold oneHour; omega⟩,
   ⟨rfl, rfl, rfl, by unfold thirtyMinutes; omega⟩⟩

/-- Witness evaluating the expiry ordering on closed instants. -/
theorem claimC10_expiry_after_occurred_witness :
    (0 : Nat) ≤ 5 ∧
    (getField (passwordResetRequestedEvent 0 5 [] [] [] []) (lit "occurredAt") =
      some (isoZ 0) ∧ 0 < 5 + oneHour) ∧
    getField (purchaseSlotAcquiredEvent 0 5 [] [] [] [] [] []) (lit "expiresAt") =
      some (isoZ (5 + thirtyMinutes)) :=
  ⟨by decide,
   ⟨(claimC10_expiry_after_occurred 0 5 (by decide) [] [] [] [] [] []).1.1,
    (claimC10_expiry_after_occurred 0 5 (by decide) [] [] [] [] [] []).1.2.2.2⟩,
   (claimC10_expiry_after_occurred 0 5 (by decide) [] [] [] [] [] []).2.2.1⟩

/-- C7: the script has no retry logic — each invocation of a send operation
hands exactly one record to the broker (whether the wait succeeds, raises
or is interrupted), a loop pass makes at most three publish attempts
(choice 4 invokes all three sends once each), and a pass for choices 1-3
makes exactly one attempt regardless of outcome, so a failed attempt is
never re-tried. -/
theorem claimC7_no_retry (p : Nat) (env : SendEnv) (it : IterInput)
    (email userName productName : Str) :
    (sentRecords (sendNewUserRegistered p env email userName).1).length = 1 ∧
    (sentRecords (sendPasswordResetRequested p env email).1).length = 1 ∧
    (sentRecords (sendPurchaseSlotAcquired p env email productName).1).length = 1 ∧
    (sentRecords (mainIteration p it).1).length ≤ 3 ∧
    (it.choice = lit "1" → (sentRecords (mainIteration p it).1).length = 1) ∧
    (it.choice = lit "2" → (sentRecords (mainIteration p it).1).length = 1) ∧
    (it.choice = lit "3" → (sentRecords (mainIteration p it).1).length = 1) := by
  refine ⟨?_, ?_, ?_, mainIteration_count_le p it, ?_, ?_, ?_⟩
  · rw [sentRecords_send1]; rfl
  · rw [sentRecords_send2]; rfl
  · rw [sentRecords_send3]; rfl
  · intro h; exact mainIteration_count1 p it h
  · intro h; exact mainIteration_count2 p it (by rw [h]; decide) h
  · intro h; exact mainIteration_count3 p it (by rw [h]; decide) (by rw [h]; decide) h

/-- Witness evaluating the one-attempt-per-pass facts on a closed pass. -/
theorem claimC7_no_retry_witness :
    sampleIter.choice = lit "1" ∧
    (sentRecords (mainIteration 0 sampleIter).1).length = 1 ∧
    (sentRecords (sendNewUserRegistered 0 sampleEnv [] []).1).length = 1 :=
  ⟨by decide,
   (claimC7_no_retry 0 sampleEnv sampleIter [] [] []).2.2.2.2.1 (by decide),
   (claimC7_no_retry 0 sampleEnv sampleIter [] [] []).1⟩

/-- C9: all three send operations publish to the same fixed topic — every
record any run of the script hands to the broker names the topic
`notification.requests`, whatever the startup result, the operator passes
and the outcomes. -/
theorem claimC9_fixed_topic (connect : Except Str Nat) (iters : List IterInput) :
    ∀ r ∈ sentRecords (runScript connect iters), r.2.1 = lit "notification.requests" := by
  intro r hr
  cases connect with
  | ok p => exact (runScript_records_mem p iters r hr).2
  | error msg =>
    rw [show runScript (.error msg) iters = (mainStartup (.error msg)).1 from rfl,
      sentRecords_mainStartup] at hr
    simp at hr

/-- Witness evaluating the fixed topic on a record of a closed run. -/
theorem claimC9_fixed_topic_witness :
    (0, lit "notification.requests", some (lit "evt-"),
      newUserRegisteredEvent 0 [] [] (lit "test@example.com") (lit "홍길동")) ∈
      sentRecords (runScript (.ok 0) [sampleIter]) ∧
    (0, lit "notification.requests", some (lit "evt-"),
      newUserRegisteredEvent 0 [] [] (lit "test@example.com") (lit "홍길동")).2.1 =
      lit "notification.requests" :=
  ⟨by decide, claimC9_fixed_topic (.ok 0) [sampleIter] _ (by decide)⟩

/-- C8: nothing is silently swallowed — whenever a send operation raises an
exception inside the interactive loop (in any branch and at any of the
three positions of the publish-all branch), the loop body's handler prints
the error line for the operator and the loop continues to the next pass;
the operator's KeyboardInterrupt during a send prints the farewell before
the loop exits; and a failure to connect at startup prints the error and
the docker hints and terminates the process with exit status 1. -/
theorem claimC8_errors_surfaced (p : Nat) (it : IterInput) (msg : Str)
    (ack1 ack2 : RecordMeta) :
    (it.choice = lit "1" → it.env1.outcome = .error msg →
      (mainIteration p it).2 = .next ∧
      Effect.println (lit "❌ 오류 발생: " ++ msg ++ [10]) ∈ (mainIteration p it).1) ∧
    (it.choice = lit "2" → it.env1.outcome = .error msg →
      (mainIteration p it).2 = .next ∧
      Effect.println (lit "❌ 오류 발생: " ++ msg ++ [10]) ∈ (mainIteration p it).1) ∧
    (it.choice = lit "3" → it.env1.outcome = .error msg →
      (mainIteration p it).2 = .next ∧
      Effect.println (lit "❌ 오류 발생: " ++ msg ++ [10]) ∈ (mainIteration p it).1) ∧
    (it.choice = lit "4" → it.env1.outcome = .error msg →
      (mainIteration p it).2 = .next ∧
      Effect.println (lit "❌ 오류 발생: " ++ msg ++ [10]) ∈ (mainIteration p it).1) ∧
    (it.choice = lit "4" → it.env1.outcome = .ok ack1 → it.env2.outcome = .error msg →
      (mainIteration p it).2 = .next ∧
      Effect.println (lit "❌ 오류 발생: " ++ msg ++ [10]) ∈ (mainIteration p it).1) ∧
    (it.choice = lit "4" → it.env1.outcome = .ok ack1 → it.env2.outcome = .ok ack2 →
      it.env3.outcome = .error msg →
      (mainIteration p it).2 = .next ∧
      Effect.println (lit "❌ 오류 발생: " ++ msg ++ [10]) ∈ (mainIteration p it).1) ∧
    (it.choice = lit "1" → it.env1.outcome = .interrupt →
      (mainIteration p it).2 = .stop ∧
      Effect.println ([10, 10] ++ lit "종료합니다.") ∈ (mainIteration p it).1) ∧
    ((mainStartup (.error msg)).2 = .exited 1 ∧
      Effect.println (lit "❌ Kafka 연결 실패: " ++ msg) ∈ (mainStartup (.error msg)).1) := by
  rcases it with ⟨choice, emailIn, nameIn, prodIn,
    ⟨a1, b1, c1, d1, e1, f1, o1⟩, ⟨a2, b2, c2, d2, e2, f2, o2⟩, ⟨a3, b3, c3, d3, e3, f3, o3⟩⟩
  refine ⟨?_, ?_, ?_, ?_, ?_, ?_, ?_, ?_⟩
  · intro h he
    change o1 = SendOutcome.error msg at he
    subst he
    simp [mainIteration, if_pos h, menuEffects, finishTry, sendNewUserRegistered]
  · intro h he
    change o1 = SendOutcome.error msg at he
    subst he
    change choice = lit "2" at h
    have h1 : ¬choice = lit "1" := by rw [h]; decide
    simp [mainIteration, if_neg h1, if_pos h, menuEffects, finishTry,
      sendPasswordResetRequested]
  · intro h he
    change o1 = SendOutcome.error msg at he
    subst he
    change choice = lit "3" at h
    have h1 : ¬choice = lit "1" := by rw [h]; decide
    have h2 : ¬choice = lit "2" := by rw [h]; decide
    simp [mainIteration, if_neg h1, if_neg h2, if_pos h, menuEffects, finishTry,
      sendPurchaseSlotAcquired]
  · intro h he
    change o1 = SendOutcome.error msg at he
    subst he
    change choice = lit "4" at h
    have h1 : ¬choice = lit "1" := by rw [h]; decide
    have h2 : ¬choice = lit "2" := by rw [h]; decide
    have h3 : ¬choice = lit "3" := by rw [h]; decide
    simp [mainIteration, if_neg h1, if_neg h2, if_neg h3, if_pos h, menuEffects, finishTry,
      sendNewUserRegistered]
  · intro h he1 he2
    change o1 = SendOutcome.ok ack1 at he1
    change o2 = SendOutcome.error msg at he2
    subst he1
    subst he2
    change choice = lit "4" at h
    have h1 : ¬choice = lit "1" := by rw [h]; decide
    have h2 : ¬choice = lit "2" := by rw [h]; decide
    have h3 : ¬choice = lit "3" := by rw [h]; decide
    simp [mainIteration, if_neg h1, if_neg h2, if_neg h3, if_pos h, menuEffects, finishTry,
      sendNewUserRegistered, sendPasswordResetRequested]
  · intro h he1 he2 he3
    change o1 = SendOutcome.ok ack1 at he1
    change o2 = SendOutcome.ok ack2 at he2
    change o3 = SendOutcome.error msg at he3
    subst he1
    subst he2
    subst he3
    change choice = lit "4" at h
    have h1 : ¬choice = lit "1" := by rw [h]; decide
    have h2 : ¬choice = lit "2" := by rw [h]; decide
    have h3 : ¬choice = lit "3" := by rw [h]; decide
    simp [mainIteration, if_neg h1, if_neg h2, if_neg h3, if_pos h, menuEffects, finishTry,
      sendNewUserRegistered, sendPasswordResetRequested, sendPurchaseSlotAcquired]
  · intro h he
    change o1 = SendOutcome.interrupt at he
    subst he
    simp [mainIteration, if_pos h, menuEffects, finishTry, sendNewUserRegistered]
  · exact ⟨rfl, by simp [mainStartup]⟩

/-- Witness evaluating the surfaced-error facts on a closed failing pass and
a closed failing startup. -/
theorem claimC8_errors_surfaced_witness :
    sampleErrIter.choice = lit "1" ∧ sampleErrIter.env1.outcome = .error (lit "boom") ∧
    ((mainIteration 0 sampleErrIter).2 = .next ∧
      Effect.println (lit "❌ 오류 발생: " ++ lit "boom" ++ [10]) ∈
        (mainIteration 0 sampleErrIter).1) ∧
    ((mainStartup (.error (lit "down"))).2 = .exited 1 ∧
      Effect.println (lit "❌ Kafka 연결 실패: " ++ lit "down") ∈
        (mainStartup (.error (lit "down"))).1) :=
  ⟨by decide, by decide,
   (claimC8_errors_surfaced 0 sampleErrIter (lit "boom") ⟨0, 0⟩ ⟨0, 0⟩).1
     (by decide) (by decide),
   (claimC8_errors_surfaced 0 sampleErrIter (lit "down") ⟨0, 0⟩ ⟨0, 0⟩).2.2.2.2.2.2.2⟩

/-- C3 counterexample: contrary to the claim that a send operation never
waits for the broker's acknowledgement, the trace of a send on a closed
input contains the blocking `future.get(timeout=10)` wait, placed directly
after the publish call. -/
theorem claimC3_counterexample :
    Effect.futureGet 10 ∈ (sendNewUserRegistered 0 sampleEnv [] []).1 ∧
    (sendNewUserRegistered 0 sampleEnv [] []).1.get? 1 = some (Effect.futureGet 10) := by
  decide

/-- C3 amended: the script performs no deduplication — a loop pass is a
function of its own inputs alone, so running the identical pass twice
publishes the identical record, same eventId included, twice without
consulting what was published before — and it records no delivery
confirmation: the acknowledgement returned by the blocking
`future.get(timeout=10)` wait (which every send does perform) reaches only
the printed report lines, as the ok-outcome trace shows. -/
theorem claimC3_no_dedup_but_waits (p tA tB : Nat) (uA uB uC uD email userName : Str)
    (ack : RecordMeta) (env : SendEnv) (it : IterInput)
    (h1 : it.choice = lit "1") (hok : it.env1.outcome = .ok ack) :
    sentRecords (runLoop p [it, it]) =
      [(p, lit "notification.requests",
        getField (newUserRegisteredEvent it.env1.tA it.env1.uA it.env1.uB
          (orDefault it.emailIn (lit "test@example.com"))
          (orDefault it.nameIn (lit "홍길동"))) (lit "eventId"),
        newUserRegisteredEvent it.env1.tA it.env1.uA it.env1.uB
          (orDefault it.emailIn (lit "test@example.com"))
          (orDefault it.nameIn (lit "홍길동"))),
       (p, lit "notification.requests",
        getField (newUserRegisteredEvent it.env1.tA it.env1.uA it.env1.uB
          (orDefault it.emailIn (lit "test@example.com"))
          (orDefault it.nameIn (lit "홍길동"))) (lit "eventId"),
        newUserRegisteredEvent it.env1.tA it.env1.uA it.env1.uB
          (orDefault it.emailIn (lit "test@example.com"))
          (orDefault it.nameIn (lit "홍길동")))] ∧
    (Effect.futureGet 10 ∈ (sendNewUserRegistered p env email userName).1 ∧
     Effect.futureGet 10 ∈ (sendPasswordResetRequested p env email).1 ∧
     Effect.futureGet 10 ∈ (sendPurchaseSlotAcquired p env email userName).1) ∧
    sendNewUserRegistered p ⟨tA, tB, uA, uB, uC, uD, .ok ack⟩ email userName =
      ([.sendRecord p (lit "notification.requests")
          (getField (newUserRegisteredEvent tA uA uB email userName) (lit "eventId"))
          (newUserRegisteredEvent tA uA uB email userName),
        .futureGet 10,
        .println (lit "✅ NEW_USER_REGISTERED 이벤트 발행 성공"),
        .println (lit "   Event ID: " ++
          (getField (newUserRegisteredEvent tA uA uB email userName)
            (lit "eventId")).getD []),
        .println (lit "   User: " ++ userName ++ lit " (" ++ email ++ lit ")"),
        .println (lit "   Partition: " ++ decStr ack.partition ++ lit ", Offset: " ++
          decStr ack.offset),
        .println []],
       .returned (newUserRegisteredEvent tA uA uB email userName)) := by
  refine ⟨?_, ⟨?_, ?_, ?_⟩, rfl⟩
  · rcases it with ⟨choice, emailIn, nameIn, prodIn,
      ⟨a1, b1, c1, d1, e1, f1, o1⟩, env2, env3⟩
    change choice = lit "1" at h1
    change o1 = SendOutcome.ok ack at hok
    subst h1
    subst hok
    simp [runLoop, mainIteration, menuEffects, finishTry, sendNewUserRegistered,
      sentRecords, sentRecords_append]
  · rcases env with ⟨a, b, c, d, e, f, o⟩
    cases o <;> simp [sendNewUserRegistered]
  · rcases env with ⟨a, b, c, d, e, f, o⟩
    cases o <;> simp [sendPasswordResetRequested]
  · rcases env with ⟨a, b, c, d, e, f, o⟩
    cases o <;> simp [sendPurchaseSlotAcquired]

/-- Witness evaluating the duplicate-publish fact on a closed double pass. -/
theorem claimC3_no_dedup_but_waits_witness :
    sampleIter.choice = lit "1" ∧ sampleIter.env1.outcome = .ok ⟨0, 0⟩ ∧
    (sentRecords (runLoop 0 [sampleIter, sampleIter])).length = 2 := by
  refine ⟨by decide, by decide, ?_⟩
  rw [(claimC3_no_dedup_but_waits 0 0 0 [] [] [] [] [] [] ⟨0, 0⟩ sampleEnv sampleIter
    (by decide) (by decide)).1]
  rfl

/-- C4 counterexample: contrary to the claim that the messaging client is
held as implicit process-wide global state rather than a handle passed into
the operations, every send operation's observable behaviour depends on the
producer handle it is explicitly given — two different handles yield two
different traces on otherwise identical closed inputs — and the startup
phase hands the newly constructed handle onward. -/
theorem claimC4_counterexample :
    (sendNewUserRegistered 0 sampleEnv [] []).1 ≠ (sendNewUserRegistered 1 sampleEnv [] []).1 ∧
    (mainStartup (.ok 7)).2 = .ok 7 := by
  exact ⟨by decide, rfl⟩

/-- C4 amended: the producer is an explicitly constructed, explicitly owned
handle — `main` builds it in its startup phase and passes it as the first
argument of every send operation, every record each send hands to the
broker goes through exactly the handle it was passed, and every record of a
whole run goes through the handle the startup phase produced; the script
holds no module-level producer. -/
theorem claimC4_explicit_handle (p : Nat) (env : SendEnv)
    (email userName productName : Str) (iters : List IterInput) :
    sentRecords (sendNewUserRegistered p env email userName).1 =
      [(p, lit "notification.requests",
        getField (newUserRegisteredEvent env.tA env.uA env.uB email userName) (lit "eventId"),
        newUserRegisteredEvent env.tA env.uA env.uB email userName)] ∧
    sentRecords (sendPasswordResetRequested p env email).1 =
      [(p, lit "notification.requests",
        getField (passwordResetRequestedEvent env.tA env.tB env.uA env.uB env.uC email)
          (lit "eventId"),
        passwordResetRequestedEvent env.tA env.tB env.uA env.uB env.uC email)] ∧
    sentRecords (sendPurchaseSlotAcquired p env email productName).1 =
      [(p, lit "notification.requests",
        getField (purchaseSlotAcquiredEvent env.tA env.tB env.uA env.uB env.uC env.uD email
          productName) (lit "eventId"),
        purchaseSlotAcquiredEvent env.tA env.tB env.uA env.uB env.uC env.uD email
          productName)] ∧
    (mainStartup (.ok p)).2 = .ok p ∧
    (∀ r ∈ sentRecords (runScript (.ok p) iters), r.1 = p) :=
  ⟨sentRecords_send1 p env email userName,
   sentRecords_send2 p env email,
   sentRecords_send3 p env email productName,
   rfl,
   fun r hr => (runScript_records_mem p iters r hr).1⟩

/-- Witness evaluating handle threading on a record of a closed run. -/
theorem claimC4_explicit_handle_witness :
    (0, lit "notification.requests", some (lit "evt-"),
      newUserRegisteredEvent 0 [] [] (lit "test@example.com") (lit "홍길동")) ∈
      sentRecords (runScript (.ok 0) [sampleIter]) ∧
    (0, lit "notification.requests", some (lit "evt-"),
      newUserRegisteredEvent 0 [] [] (lit "test@example.com") (lit "홍길동")).1 = 0 :=
  ⟨by decide,
   (claimC4_explicit_handle 0 sampleEnv [] [] [] [sampleIter]).2.2.2.2 _ (by decide)⟩
